import Mathlib

/-!
Shallow embedding of the `sanctions-law-mcp` server core
(`src/tools/sanctions-utils.ts`, `src/tools/check-data-freshness.ts`,
`src/tools/search-sanctions-law.ts`, `src/tools/check-cyber-sanctions.ts`,
`src/tools/get-provision.ts`, `src/tools/list-sources.ts`, and the schema /
seeding module of `src/db/schema.ts` bundled in `src/index.ts`), together
with theorems settling the frozen claims about the natural-language spec.

Modelling conventions:
* TypeScript `number` values are modelled by `JSNumber` (NaN, the two
  infinities, and finite rationals); `Math.floor/max/min` follow the
  JavaScript semantics including NaN propagation.
* `string | undefined` / optional parameters are modelled by `Option`.
* SQLite query pipelines are modelled row-by-row: `WHERE` clauses become
  `List.filter`, `ORDER BY` becomes `List.mergeSort` with the comparator
  spelled out, `LIMIT ?` becomes `List.take`.
* `JSON.parse` (a JavaScript builtin, not repository code) is passed in as
  an explicit function parameter `jsonParse : String → Option Json`, where
  `none` models a parse exception; theorems hold for every such function.
* JavaScript `Date` arithmetic (`ageInDays` builds on `new Date`) is
  likewise passed in as a parameter producing an `AgeDays` value
  (`infinite` models the `Number.POSITIVE_INFINITY` returned for
  unparseable dates, `finite n` the value `Math.max(0, Math.floor …)`).
-/

/-- JavaScript IEEE-754 number as relevant here: NaN, ±Infinity, or a finite
value (modelled as a rational, which is exact for every finite double). -/
inductive JSNumber where
  | nan
  | posInf
  | negInf
  | num (q : ℚ)
deriving DecidableEq

/-- `Number.isNaN`. -/
def JSNumber.isNaNb : JSNumber → Bool
  | .nan => true
  | _ => false

/-- The `≤` order on non-NaN JavaScript numbers (false on NaN, as in JS). -/
def jsLeB : JSNumber → JSNumber → Bool
  | .nan, _ => false
  | _, .nan => false
  | .negInf, _ => true
  | _, .negInf => false
  | _, .posInf => true
  | .posInf, _ => false
  | .num a, .num b => a ≤ b

/-- `Math.max` on two arguments: NaN if either argument is NaN. -/
def mathMax (a b : JSNumber) : JSNumber :=
  if a.isNaNb || b.isNaNb then .nan else if jsLeB a b then b else a

/-- `Math.min` on two arguments: NaN if either argument is NaN. -/
def mathMin (a b : JSNumber) : JSNumber :=
  if a.isNaNb || b.isNaNb then .nan else if jsLeB a b then a else b

/-- `Math.floor`: identity on NaN and the infinities, floor on finite values. -/
def mathFloor : JSNumber → JSNumber
  | .nan => .nan
  | .posInf => .posInf
  | .negInf => .negInf
  | .num q => .num ((⌊q⌋ : ℤ) : ℚ)

/-- Characters removed by JavaScript `String.prototype.trim` (ASCII
whitespace, NBSP and the BOM; the rarer Unicode space characters are not
produced by any input considered here). -/
def isJsWhitespace (c : Char) : Bool :=
  c.toNat == 32 || c.toNat == 9 || c.toNat == 10 || c.toNat == 11 ||
  c.toNat == 12 || c.toNat == 13 || c.toNat == 160 || c.toNat == 65279

/-- Trim a character list on both ends. -/
def trimChars (l : List Char) : List Char :=
  ((l.dropWhile isJsWhitespace).reverse.dropWhile isJsWhitespace).reverse

/-- JavaScript `String.prototype.trim`. -/
def jsTrim (s : String) : String :=
  String.mk (trimChars s.data)

/-- JavaScript `String.prototype.toLowerCase` / SQL `LOWER` (ASCII case
folding, written structurally so concrete instances evaluate). -/
def jsToLower (s : String) : String :=
  String.mk (s.data.map Char.toLower)

/-- Lexicographic codepoint comparison of character lists.  SQLite's
default BINARY collation compares UTF-8 bytes, which coincides with
codepoint order. -/
def charListLtb : List Char → List Char → Bool
  | [], [] => false
  | [], _ :: _ => true
  | _ :: _, [] => false
  | c :: cs, d :: ds => c < d || (c == d && charListLtb cs ds)

/-- Strict `ORDER BY`-ascending comparison on TEXT columns. -/
def strLtb (a b : String) : Bool :=
  charListLtb a.data b.data

/-- Non-strict `ORDER BY`-ascending comparison on TEXT columns. -/
def strLeb (a b : String) : Bool :=
  strLtb a b || a == b

namespace SanctionsUtils

/-- `DEFAULT_LIMIT` from `sanctions-utils.ts`. -/
def DEFAULT_LIMIT : ℚ := 10

/-- `MAX_LIMIT` from `sanctions-utils.ts`. -/
def MAX_LIMIT : ℚ := 50

/-- `normalizeLimit` from `sanctions-utils.ts`:
`typeof limit !== 'number' || Number.isNaN(limit)` yields the default,
otherwise `Math.min(Math.max(Math.floor(limit), 1), MAX_LIMIT)`.
(The TypeScript default parameter `defaultValue = DEFAULT_LIMIT` is made
explicit at each call site.) -/
def normalizeLimit (limit : Option JSNumber) (defaultValue : ℚ) : JSNumber :=
  match limit with
  | none => .num defaultValue
  | some l =>
    if l.isNaNb then .num defaultValue
    else mathMin (mathMax (mathFloor l) (.num 1)) (.num MAX_LIMIT)

/-- `normalizeStringArray`'s filter: keep a trimmed value iff it is
non-empty and is the first occurrence (`array.indexOf(value) === index`). -/
def normalizeStringArrayGo (seen : List String) : List String → List String
  | [] => []
  | v :: rest =>
    if v != "" && !(seen.contains v) then v :: normalizeStringArrayGo (v :: seen) rest
    else normalizeStringArrayGo (v :: seen) rest

/-- `normalizeStringArray` from `sanctions-utils.ts`. -/
def normalizeStringArray (values : Option (List String)) : List String :=
  match values with
  | none => []
  | some vs => normalizeStringArrayGo [] (vs.map jsTrim)

/-- The characters matched by the regex `/[()^*:]/` in `escapeFts5Query`. -/
def fts5SpecialChar (c : Char) : Bool :=
  c == '(' || c == ')' || c == '^' || c == '*' || c == ':'

/-- One replacement step of `escapeFts5Query`: a special character becomes
`"c"`, every other character is kept. -/
def escapeFts5Char (c : Char) : List Char :=
  if fts5SpecialChar c then ['"', c, '"'] else [c]

/-- `escapeFts5Query` from `sanctions-utils.ts`:
`query.replace(/[()^*:]/g, (c) => `"c"`).trim()`. -/
def escapeFts5Query (query : String) : String :=
  String.mk (trimChars (query.data.flatMap escapeFts5Char))

/-- `sqlLikePattern` from `sanctions-utils.ts`: `%${value.toLowerCase()}%`. -/
def sqlLikePattern (value : String) : String :=
  "%" ++ jsToLower value ++ "%"

/-- `frequencyThresholdDays` from `sanctions-utils.ts`. -/
def frequencyThresholdDays (frequency : String) : Nat :=
  if frequency == "daily" then 30
  else if frequency == "weekly" then 60
  else if frequency == "monthly" then 120
  else if frequency == "on_change" then 90
  else 30

end SanctionsUtils

/-- SQL `LIKE` matching on character lists (`%` matches any sequence, `_`
any single character).  Both sides are lower-cased at every call site in
the source, so SQLite's ASCII case folding is immaterial and characters
are compared exactly.  The recursion is driven by a fuel counter (every
step shrinks `p.length + s.length`, so `p.length + s.length + 1` fuel
always suffices); this keeps the definition structurally recursive, so
concrete instances evaluate. -/
def likeMatchFuel : Nat → List Char → List Char → Bool
  | 0, _, _ => false
  | _ + 1, [], [] => true
  | _ + 1, [], _ :: _ => false
  | fuel + 1, '%' :: ps, [] => likeMatchFuel fuel ps []
  | fuel + 1, '%' :: ps, c :: s2 =>
    likeMatchFuel fuel ps (c :: s2) || likeMatchFuel fuel ('%' :: ps) s2
  | fuel + 1, '_' :: ps, _ :: s2 => likeMatchFuel fuel ps s2
  | _ + 1, '_' :: _, [] => false
  | fuel + 1, c :: ps, d :: s2 => c == d && likeMatchFuel fuel ps s2
  | _ + 1, _ :: _, [] => false

/-- SQL `LIKE` on character lists, with sufficient fuel. -/
def likeMatchL (p s : List Char) : Bool :=
  likeMatchFuel (p.length + s.length + 1) p s

/-- SQL `LIKE`: does `text` match `pattern`? -/
def likeMatch (pattern text : String) : Bool :=
  likeMatchL pattern.data text.data


/-- State of the FTS5 match-query string scanner: outside any quoted
phrase, inside one, or just after a `"` seen inside one (which either
closes the phrase or, doubled, stands for a literal quote). -/
inductive FtsScanState where
  | outside
  | inside
  | insideQuote
deriving DecidableEq

/-- One character of FTS5 query-string scanning.  In the FTS5 match-query
grammar a `"` opens a quoted phrase string, a second `"` closes it, and
`""` inside a phrase is an escaped literal quote. -/
def ftsStep (st : FtsScanState) (c : Char) : FtsScanState :=
  match st with
  | .outside => if c == '"' then .inside else .outside
  | .inside => if c == '"' then .insideQuote else .inside
  | .insideQuote => if c == '"' then .inside else .outside

/-- A query string left in the middle of a quoted phrase is an FTS5
"unterminated string" syntax error. -/
def ftsAccept : FtsScanState → Bool
  | .inside => false
  | _ => true

/-- Necessary well-formedness condition of an FTS5 match query: its phrase
quoting must be balanced, otherwise SQLite reports a syntax error
(unterminated string) for the whole `MATCH` expression. -/
def ftsQuotesBalanced (s : String) : Bool :=
  ftsAccept (s.data.foldl ftsStep .outside)

/-- JSON values (`JSON.parse` results / `JSON.stringify` inputs).  Numbers
are restricted to integers, which covers every value the seeding and
parsing paths of this repository touch. -/
inductive Json where
  | null
  | bool (b : Bool)
  | num (n : Int)
  | str (s : String)
  | arr (elements : List Json)
  | obj (fields : List (String × Json))

/-- Hex digit used by `\u00XX` escapes. -/
def hexDigit (n : Nat) : Char :=
  if n < 10 then Char.ofNat (48 + n) else Char.ofNat (87 + n)

/-- JSON string-character escaping as performed by `JSON.stringify`. -/
def jsonEscapeChar (c : Char) : List Char :=
  if c == '"' then ['\\', '"']
  else if c == '\\' then ['\\', '\\']
  else if c.toNat == 8 then ['\\', 'b']
  else if c.toNat == 9 then ['\\', 't']
  else if c.toNat == 10 then ['\\', 'n']
  else if c.toNat == 12 then ['\\', 'f']
  else if c.toNat == 13 then ['\\', 'r']
  else if c.toNat < 32 then ['\\', 'u', '0', '0', hexDigit (c.toNat / 16), hexDigit (c.toNat % 16)]
  else [c]

/-- A JSON string literal for `s`. -/
def jsonQuoteString (s : String) : String :=
  "\"" ++ String.mk (s.data.flatMap jsonEscapeChar) ++ "\""

mutual

/-- `JSON.stringify` on the `Json` model. -/
def Json.stringify : Json → String
  | .null => "null"
  | .bool true => "true"
  | .bool false => "false"
  | .num n => toString n
  | .str s => jsonQuoteString s
  | .arr xs => "[" ++ Json.stringifyList xs ++ "]"
  | .obj fs => "\x7b" ++ Json.stringifyFields fs ++ "\x7d"

/-- Comma-separated stringification of array elements. -/
def Json.stringifyList : List Json → String
  | [] => ""
  | [x] => x.stringify
  | x :: y :: rest => x.stringify ++ "," ++ Json.stringifyList (y :: rest)

/-- Comma-separated stringification of object fields. -/
def Json.stringifyFields : List (String × Json) → String
  | [] => ""
  | [(k, v)] => jsonQuoteString k ++ ":" ++ v.stringify
  | (k, v) :: f :: rest => jsonQuoteString k ++ ":" ++ v.stringify ++ "," ++ Json.stringifyFields (f :: rest)

end

/-- `JSON.stringify` of a string array (used for the `topics`,
`legal_basis` and `keywords` columns). -/
def jsonStringifyStrings (xs : List String) : String :=
  (Json.arr (xs.map Json.str)).stringify

/-- `parseJsonField` from `sanctions-utils.ts`.  `jsonParse` models the
builtin `JSON.parse`; `none` models a thrown parse error, which the
`try`/`catch` converts to `null`.  A `null` or empty-string column value is
falsy and short-circuits to `null`. -/
def parseJsonField (jsonParse : String → Option Json) (value : Option String) : Option Json :=
  match value with
  | none => none
  | some s => if s == "" then none else jsonParse s

/-- `parseJsonArray` from `sanctions-utils.ts`: non-arrays collapse to `[]`;
array elements are mapped to themselves when strings and `null` otherwise,
then filtered by JavaScript truthiness (dropping `null` and `''`). -/
def parseJsonArray (jsonParse : String → Option Json) (value : Option String) : List String :=
  match parseJsonField jsonParse value with
  | some (.arr elements) =>
    ((elements.map (fun entry => match entry with | .str s => some s | _ => none)).filter
      (fun entry => match entry with | some s => s != "" | none => false)).filterMap id
  | _ => []

/-! ## Relational state (schema of `src/db/schema.ts`) -/

/-- A row of `sources` (`metadata` is the serialized TEXT column). -/
structure SourceRow where
  id : String
  name : String
  authority : String
  official_portal : String
  retrieval_method : String
  update_frequency : String
  records_estimate : String
  priority : String
  coverage_note : String
  last_verified : String
  metadata : Option String
deriving DecidableEq

/-- A row of `sanctions_regimes` (`legal_basis` is JSON-encoded TEXT;
`cyber_related` is the 0/1 INTEGER column, modelled as `Bool`). -/
structure RegimeRow where
  id : String
  name : String
  jurisdiction : String
  authority : String
  summary : String
  legal_basis : String
  cyber_related : Bool
  delisting_procedure_id : Option String
  official_url : String
deriving DecidableEq

/-- A row of `provisions` (without the surrogate `rowid`; `topics` is
JSON-encoded TEXT). -/
structure ProvisionRow where
  source_id : String
  item_id : String
  title : String
  text : String
  parent : Option String
  kind : String
  regime_id : Option String
  issued_on : Option String
  url : String
  topics : String
  metadata : Option String
deriving DecidableEq

/-- A row of `executive_orders`. -/
structure ExecutiveOrderRow where
  id : String
  source_id : String
  regime_id : Option String
  order_number : String
  title : String
  issued_on : String
  status : String
  summary : String
  cyber_related : Bool
  legal_basis : String
  official_url : String
deriving DecidableEq

/-- A row of `delisting_procedures`. -/
structure DelistingProcedureRow where
  id : String
  regime_id : String
  authority : String
  procedure_summary : String
  evidentiary_standard : String
  review_body : String
  review_timeline : String
  application_url : String
  legal_basis : String
deriving DecidableEq

/-- A row of `export_controls`. -/
structure ExportControlRow where
  id : String
  source_id : String
  jurisdiction : String
  instrument : String
  section_ : String
  title : String
  summary : String
  focus : String
  official_url : String
deriving DecidableEq

/-- A row of `sanctions_case_law` (`keywords` is JSON-encoded TEXT;
`delisting_related` is the 0/1 INTEGER column, modelled as `Bool`). -/
structure CaseLawRow where
  id : String
  source_id : String
  court : String
  case_reference : String
  title : String
  decision_date : String
  regime_id : Option String
  delisting_related : Bool
  outcome : String
  summary : String
  keywords : String
  official_url : String
deriving DecidableEq

/-- A row of `source_freshness`. -/
structure SourceFreshnessRow where
  source_id : String
  last_checked : String
  last_updated : String
  check_frequency : String
  status : String
  notes : String
deriving DecidableEq

/-- The relational database state: the eight base tables.  The external
content FTS index `provisions_fts` is maintained by triggers purely as a
mirror of `provisions` and carries no independent state. -/
structure DbState where
  sources : List SourceRow
  sanctions_regimes : List RegimeRow
  provisions : List ProvisionRow
  executive_orders : List ExecutiveOrderRow
  delisting_procedures : List DelistingProcedureRow
  export_controls : List ExportControlRow
  sanctions_case_law : List CaseLawRow
  source_freshness : List SourceFreshnessRow
deriving DecidableEq

/-! ## Seed records (`src/db/types.ts`) and seeding (`src/db/schema.ts`) -/

/-- `SourceRecord`. -/
structure SourceRecord where
  id : String
  name : String
  authority : String
  official_portal : String
  retrieval_method : String
  update_frequency : String
  records_estimate : String
  priority : String
  coverage_note : String
  last_verified : String
  metadata : Option Json

/-- `SanctionsRegimeRecord`. -/
structure SanctionsRegimeRecord where
  id : String
  name : String
  jurisdiction : String
  authority : String
  summary : String
  legal_basis : List String
  cyber_related : Bool
  delisting_procedure_id : Option String
  official_url : String

/-- `ProvisionRecord`. -/
structure ProvisionRecord where
  source_id : String
  item_id : String
  title : String
  text : String
  parent : Option String
  kind : String
  regime_id : Option String
  issued_on : Option String
  url : String
  topics : List String
  metadata : Option Json

/-- `ExecutiveOrderRecord`. -/
structure ExecutiveOrderRecord where
  id : String
  source_id : String
  regime_id : Option String
  order_number : String
  title : String
  issued_on : String
  status : String
  summary : String
  cyber_related : Bool
  legal_basis : List String
  official_url : String

/-- `DelistingProcedureRecord`. -/
structure DelistingProcedureRecord where
  id : String
  regime_id : String
  authority : String
  procedure_summary : String
  evidentiary_standard : String
  review_body : String
  review_timeline : String
  application_url : String
  legal_basis : List String

/-- `ExportControlRecord`. -/
structure ExportControlRecord where
  id : String
  source_id : String
  jurisdiction : String
  instrument : String
  section_ : String
  title : String
  summary : String
  focus : String
  official_url : String

/-- `SanctionsCaseLawRecord`. -/
structure SanctionsCaseLawRecord where
  id : String
  source_id : String
  court : String
  case_reference : String
  title : String
  decision_date : String
  regime_id : Option String
  delisting_related : Bool
  outcome : String
  summary : String
  keywords : List String
  official_url : String

/-- `SourceFreshnessRecord`. -/
structure SourceFreshnessRecord where
  source_id : String
  last_checked : String
  last_updated : String
  check_frequency : String
  status : String
  notes : String

/-- `SanctionsSeed`. -/
structure SanctionsSeed where
  schema_version : String
  generated_on : String
  sources : List SourceRecord
  sanctions_regimes : List SanctionsRegimeRecord
  provisions : List ProvisionRecord
  executive_orders : List ExecutiveOrderRecord
  delisting_procedures : List DelistingProcedureRecord
  export_controls : List ExportControlRecord
  sanctions_case_law : List SanctionsCaseLawRecord
  source_freshness : List SourceFreshnessRecord

/-- `optionalJson` from `src/db/schema.ts`: `null`/`undefined` becomes SQL
NULL, an object is `JSON.stringify`-ed. -/
def optionalJson (value : Option Json) : Option String :=
  match value with
  | none => none
  | some v => some v.stringify

/-- The bound parameters of `insertSourceRecord`. -/
def SourceRecord.toRow (r : SourceRecord) : SourceRow :=
  { id := r.id, name := r.name, authority := r.authority,
    official_portal := r.official_portal, retrieval_method := r.retrieval_method,
    update_frequency := r.update_frequency, records_estimate := r.records_estimate,
    priority := r.priority, coverage_note := r.coverage_note,
    last_verified := r.last_verified, metadata := optionalJson r.metadata }

/-- The bound parameters of `insertRegimeRecord`. -/
def SanctionsRegimeRecord.toRow (r : SanctionsRegimeRecord) : RegimeRow :=
  { id := r.id, name := r.name, jurisdiction := r.jurisdiction,
    authority := r.authority, summary := r.summary,
    legal_basis := jsonStringifyStrings r.legal_basis,
    cyber_related := r.cyber_related,
    delisting_procedure_id := r.delisting_procedure_id,
    official_url := r.official_url }

/-- The bound parameters of `insertProvisionRecord`. -/
def ProvisionRecord.toRow (r : ProvisionRecord) : ProvisionRow :=
  { source_id := r.source_id, item_id := r.item_id, title := r.title,
    text := r.text, parent := r.parent, kind := r.kind,
    regime_id := r.regime_id, issued_on := r.issued_on, url := r.url,
    topics := jsonStringifyStrings r.topics, metadata := optionalJson r.metadata }

/-- The bound parameters of `insertExecutiveOrderRecord`. -/
def ExecutiveOrderRecord.toRow (r : ExecutiveOrderRecord) : ExecutiveOrderRow :=
  { id := r.id, source_id := r.source_id, regime_id := r.regime_id,
    order_number := r.order_number, title := r.title, issued_on := r.issued_on,
    status := r.status, summary := r.summary, cyber_related := r.cyber_related,
    legal_basis := jsonStringifyStrings r.legal_basis,
    official_url := r.official_url }

/-- The bound parameters of `insertDelistingProcedureRecord`. -/
def DelistingProcedureRecord.toRow (r : DelistingProcedureRecord) : DelistingProcedureRow :=
  { id := r.id, regime_id := r.regime_id, authority := r.authority,
    procedure_summary := r.procedure_summary,
    evidentiary_standard := r.evidentiary_standard,
    review_body := r.review_body, review_timeline := r.review_timeline,
    application_url := r.application_url,
    legal_basis := jsonStringifyStrings r.legal_basis }

/-- The bound parameters of `insertExportControlRecord`. -/
def ExportControlRecord.toRow (r : ExportControlRecord) : ExportControlRow :=
  { id := r.id, source_id := r.source_id, jurisdiction := r.jurisdiction,
    instrument := r.instrument, section_ := r.section_, title := r.title,
    summary := r.summary, focus := r.focus, official_url := r.official_url }

/-- The bound parameters of `insertCaseLawRecord`. -/
def SanctionsCaseLawRecord.toRow (r : SanctionsCaseLawRecord) : CaseLawRow :=
  { id := r.id, source_id := r.source_id, court := r.court,
    case_reference := r.case_reference, title := r.title,
    decision_date := r.decision_date, regime_id := r.regime_id,
    delisting_related := r.delisting_related, outcome := r.outcome,
    summary := r.summary, keywords := jsonStringifyStrings r.keywords,
    official_url := r.official_url }

/-- The bound parameters of `insertFreshnessRecord`. -/
def SourceFreshnessRecord.toRow (r : SourceFreshnessRecord) : SourceFreshnessRow :=
  { source_id := r.source_id, last_checked := r.last_checked,
    last_updated := r.last_updated, check_frequency := r.check_frequency,
    status := r.status, notes := r.notes }

/-! `statement.run` on each prepared `INSERT` either appends the row or
throws on a violated UNIQUE / FOREIGN KEY constraint of the schema
(`build-db.ts` and the test fixture both run with `PRAGMA foreign_keys = ON`).
`Except.error` models the thrown `SqliteError`. -/

/-- `INSERT INTO sources`: `id` is the primary key. -/
def insertSourceRow (st : DbState) (r : SourceRow) : Except String DbState :=
  if st.sources.any (fun s => s.id == r.id) then
    .error "UNIQUE sources.id"
  else
    .ok { st with sources := st.sources ++ [r] }

/-- `INSERT INTO sanctions_regimes`: `id` is the primary key (the schema
declares no foreign key on `delisting_procedure_id`). -/
def insertRegimeRow (st : DbState) (r : RegimeRow) : Except String DbState :=
  if st.sanctions_regimes.any (fun s => s.id == r.id) then
    .error "UNIQUE sanctions_regimes.id"
  else
    .ok { st with sanctions_regimes := st.sanctions_regimes ++ [r] }

/-- `INSERT INTO provisions`: `(source_id, item_id)` is UNIQUE; `source_id`
and (when non-null) `regime_id` are foreign keys. -/
def insertProvisionRow (st : DbState) (r : ProvisionRow) : Except String DbState :=
  if st.provisions.any (fun p => p.source_id == r.source_id && p.item_id == r.item_id) then
    .error "UNIQUE provisions.source_id, provisions.item_id"
  else if !(st.sources.any (fun s => s.id == r.source_id)) then
    .error "FOREIGN KEY provisions.source_id"
  else if (match r.regime_id with
           | none => false
           | some rid => !(st.sanctions_regimes.any (fun g => g.id == rid))) then
    .error "FOREIGN KEY provisions.regime_id"
  else
    .ok { st with provisions := st.provisions ++ [r] }

/-- `INSERT INTO executive_orders`: `id` is the primary key; `source_id`
and (when non-null) `regime_id` are foreign keys. -/
def insertExecutiveOrderRow (st : DbState) (r : ExecutiveOrderRow) : Except String DbState :=
  if st.executive_orders.any (fun e => e.id == r.id) then
    .error "UNIQUE executive_orders.id"
  else if !(st.sources.any (fun s => s.id == r.source_id)) then
    .error "FOREIGN KEY executive_orders.source_id"
  else if (match r.regime_id with
           | none => false
           | some rid => !(st.sanctions_regimes.any (fun g => g.id == rid))) then
    .error "FOREIGN KEY executive_orders.regime_id"
  else
    .ok { st with executive_orders := st.executive_orders ++ [r] }

/-- `INSERT INTO delisting_procedures`: `id` is the primary key; `regime_id`
is a mandatory foreign key. -/
def insertDelistingProcedureRow (st : DbState) (r : DelistingProcedureRow) : Except String DbState :=
  if st.delisting_procedures.any (fun d => d.id == r.id) then
    .error "UNIQUE delisting_procedures.id"
  else if !(st.sanctions_regimes.any (fun g => g.id == r.regime_id)) then
    .error "FOREIGN KEY delisting_procedures.regime_id"
  else
    .ok { st with delisting_procedures := st.delisting_procedures ++ [r] }

/-- `INSERT INTO export_controls`: `id` is the primary key; `source_id` is a
foreign key. -/
def insertExportControlRow (st : DbState) (r : ExportControlRow) : Except String DbState :=
  if st.export_controls.any (fun e => e.id == r.id) then
    .error "UNIQUE export_controls.id"
  else if !(st.sources.any (fun s => s.id == r.source_id)) then
    .error "FOREIGN KEY export_controls.source_id"
  else
    .ok { st with export_controls := st.export_controls ++ [r] }

/-- `INSERT INTO sanctions_case_law`: `id` is the primary key; `source_id`
and (when non-null) `regime_id` are foreign keys. -/
def insertCaseLawRow (st : DbState) (r : CaseLawRow) : Except String DbState :=
  if st.sanctions_case_law.any (fun c => c.id == r.id) then
    .error "UNIQUE sanctions_case_law.id"
  else if !(st.sources.any (fun s => s.id == r.source_id)) then
    .error "FOREIGN KEY sanctions_case_law.source_id"
  else if (match r.regime_id with
           | none => false
           | some rid => !(st.sanctions_regimes.any (fun g => g.id == rid))) then
    .error "FOREIGN KEY sanctions_case_law.regime_id"
  else
    .ok { st with sanctions_case_law := st.sanctions_case_law ++ [r] }

/-- `INSERT INTO source_freshness`: `source_id` is the primary key and a
foreign key into `sources`. -/
def insertFreshnessRow (st : DbState) (r : SourceFreshnessRow) : Except String DbState :=
  if st.source_freshness.any (fun f => f.source_id == r.source_id) then
    .error "UNIQUE source_freshness.source_id"
  else if !(st.sources.any (fun s => s.id == r.source_id)) then
    .error "FOREIGN KEY source_freshness.source_id"
  else
    .ok { st with source_freshness := st.source_freshness ++ [r] }

/-- A `for … of` loop of `statement.run` calls: stops at the first thrown
constraint error. -/
def insertAll {ρ : Type} (ins : DbState → ρ → Except String DbState) :
    DbState → List ρ → Except String DbState
  | st, [] => .ok st
  | st, r :: rest =>
    match ins st r with
    | .ok st2 => insertAll ins st2 rest
    | .error e => .error e

/-- The body of the `db.transaction(() => { … })` callback in
`seedSanctionsDatabase`: the eight per-table loops, in source order. -/
def seedTransactionBody (st : DbState) (seed : SanctionsSeed) : Except String DbState := do
  let st ← insertAll insertSourceRow st (seed.sources.map SourceRecord.toRow)
  let st ← insertAll insertRegimeRow st (seed.sanctions_regimes.map SanctionsRegimeRecord.toRow)
  let st ← insertAll insertProvisionRow st (seed.provisions.map ProvisionRecord.toRow)
  let st ← insertAll insertExecutiveOrderRow st (seed.executive_orders.map ExecutiveOrderRecord.toRow)
  let st ← insertAll insertDelistingProcedureRow st (seed.delisting_procedures.map DelistingProcedureRecord.toRow)
  let st ← insertAll insertExportControlRow st (seed.export_controls.map ExportControlRecord.toRow)
  let st ← insertAll insertCaseLawRow st (seed.sanctions_case_law.map SanctionsCaseLawRecord.toRow)
  let st ← insertAll insertFreshnessRow st (seed.source_freshness.map SourceFreshnessRecord.toRow)
  return st

/-- `seedSanctionsDatabase` from `src/db/schema.ts`.  `db.transaction(fn)`
of better-sqlite3 runs `fn` inside `BEGIN … COMMIT` and, when `fn` throws,
rolls the transaction back (restoring the pre-transaction state) and
re-throws.  The result is the observable database state afterwards paired
with the propagated error, if any. -/
def seedSanctionsDatabase (st : DbState) (seed : SanctionsSeed) : DbState × Option String :=
  match seedTransactionBody st seed with
  | .ok st2 => (st2, none)
  | .error e => (st, some e)

/-! ## Atomicity of seeding (claim C2) -/

theorem insertSourceRow_ok {st st' : DbState} {r : SourceRow}
    (h : insertSourceRow st r = .ok st') :
    st' = { st with sources := st.sources ++ [r] } := by
  unfold insertSourceRow at h
  split at h
  · cases h
  · exact (Except.ok.inj h).symm

theorem insertRegimeRow_ok {st st' : DbState} {r : RegimeRow}
    (h : insertRegimeRow st r = .ok st') :
    st' = { st with sanctions_regimes := st.sanctions_regimes ++ [r] } := by
  unfold insertRegimeRow at h
  split at h
  · cases h
  · exact (Except.ok.inj h).symm

theorem insertProvisionRow_ok {st st' : DbState} {r : ProvisionRow}
    (h : insertProvisionRow st r = .ok st') :
    st' = { st with provisions := st.provisions ++ [r] } := by
  unfold insertProvisionRow at h
  split at h
  · cases h
  split at h
  · cases h
  split at h
  · cases h
  · exact (Except.ok.inj h).symm

theorem insertExecutiveOrderRow_ok {st st' : DbState} {r : ExecutiveOrderRow}
    (h : insertExecutiveOrderRow st r = .ok st') :
    st' = { st with executive_orders := st.executive_orders ++ [r] } := by
  unfold insertExecutiveOrderRow at h
  split at h
  · cases h
  split at h
  · cases h
  split at h
  · cases h
  · exact (Except.ok.inj h).symm

theorem insertDelistingProcedureRow_ok {st st' : DbState} {r : DelistingProcedureRow}
    (h : insertDelistingProcedureRow st r = .ok st') :
    st' = { st with delisting_procedures := st.delisting_procedures ++ [r] } := by
  unfold insertDelistingProcedureRow at h
  split at h
  · cases h
  split at h
  · cases h
  · exact (Except.ok.inj h).symm

theorem insertExportControlRow_ok {st st' : DbState} {r : ExportControlRow}
    (h : insertExportControlRow st r = .ok st') :
    st' = { st with export_controls := st.export_controls ++ [r] } := by
  unfold insertExportControlRow at h
  split at h
  · cases h
  split at h
  · cases h
  · exact (Except.ok.inj h).symm

theorem insertCaseLawRow_ok {st st' : DbState} {r : CaseLawRow}
    (h : insertCaseLawRow st r = .ok st') :
    st' = { st with sanctions_case_law := st.sanctions_case_law ++ [r] } := by
  unfold insertCaseLawRow at h
  split at h
  · cases h
  split at h
  · cases h
  split at h
  · cases h
  · exact (Except.ok.inj h).symm

theorem insertFreshnessRow_ok {st st' : DbState} {r : SourceFreshnessRow}
    (h : insertFreshnessRow st r = .ok st') :
    st' = { st with source_freshness := st.source_freshness ++ [r] } := by
  unfold insertFreshnessRow at h
  split at h
  · cases h
  split at h
  · cases h
  · exact (Except.ok.inj h).symm

theorem insertAll_sources_ok {rs : List SourceRow} {st st' : DbState}
    (h : insertAll insertSourceRow st rs = .ok st') :
    st' = { st with sources := st.sources ++ rs } := by
  induction rs generalizing st with
  | nil =>
    simp only [insertAll] at h
    simpa using (Except.ok.inj h).symm
  | cons r rest ih =>
    simp only [insertAll] at h
    cases hr : insertSourceRow st r with
    | error e => rw [hr] at h; cases h
    | ok st2 =>
      rw [hr] at h
      have h2 := ih h
      rw [insertSourceRow_ok hr] at h2
      simpa [List.append_assoc] using h2

theorem insertAll_regimes_ok {rs : List RegimeRow} {st st' : DbState}
    (h : insertAll insertRegimeRow st rs = .ok st') :
    st' = { st with sanctions_regimes := st.sanctions_regimes ++ rs } := by
  induction rs generalizing st with
  | nil =>
    simp only [insertAll] at h
    simpa using (Except.ok.inj h).symm
  | cons r rest ih =>
    simp only [insertAll] at h
    cases hr : insertRegimeRow st r with
    | error e => rw [hr] at h; cases h
    | ok st2 =>
      rw [hr] at h
      have h2 := ih h
      rw [insertRegimeRow_ok hr] at h2
      simpa [List.append_assoc] using h2

theorem insertAll_provisions_ok {rs : List ProvisionRow} {st st' : DbState}
    (h : insertAll insertProvisionRow st rs = .ok st') :
    st' = { st with provisions := st.provisions ++ rs } := by
  induction rs generalizing st with
  | nil =>
    simp only [insertAll] at h
    simpa using (Except.ok.inj h).symm
  | cons r rest ih =>
    simp only [insertAll] at h
    cases hr : insertProvisionRow st r with
    | error e => rw [hr] at h; cases h
    | ok st2 =>
      rw [hr] at h
      have h2 := ih h
      rw [insertProvisionRow_ok hr] at h2
      simpa [List.append_assoc] using h2

theorem insertAll_executive_orders_ok {rs : List ExecutiveOrderRow} {st st' : DbState}
    (h : insertAll insertExecutiveOrderRow st rs = .ok st') :
    st' = { st with executive_orders := st.executive_orders ++ rs } := by
  induction rs generalizing st with
  | nil =>
    simp only [insertAll] at h
    simpa using (Except.ok.inj h).symm
  | cons r rest ih =>
    simp only [insertAll] at h
    cases hr : insertExecutiveOrderRow st r with
    | error e => rw [hr] at h; cases h
    | ok st2 =>
      rw [hr] at h
      have h2 := ih h
      rw [insertExecutiveOrderRow_ok hr] at h2
      simpa [List.append_assoc] using h2

theorem insertAll_delisting_ok {rs : List DelistingProcedureRow} {st st' : DbState}
    (h : insertAll insertDelistingProcedureRow st rs = .ok st') :
    st' = { st with delisting_procedures := st.delisting_procedures ++ rs } := by
  induction rs generalizing st with
  | nil =>
    simp only [insertAll] at h
    simpa using (Except.ok.inj h).symm
  | cons r rest ih =>
    simp only [insertAll] at h
    cases hr : insertDelistingProcedureRow st r with
    | error e => rw [hr] at h; cases h
    | ok st2 =>
      rw [hr] at h
      have h2 := ih h
      rw [insertDelistingProcedureRow_ok hr] at h2
      simpa [List.append_assoc] using h2

theorem insertAll_export_controls_ok {rs : List ExportControlRow} {st st' : DbState}
    (h : insertAll insertExportControlRow st rs = .ok st') :
    st' = { st with export_controls := st.export_controls ++ rs } := by
  induction rs generalizing st with
  | nil =>
    simp only [insertAll] at h
    simpa using (Except.ok.inj h).symm
  | cons r rest ih =>
    simp only [insertAll] at h
    cases hr : insertExportControlRow st r with
    | error e => rw [hr] at h; cases h
    | ok st2 =>
      rw [hr] at h
      have h2 := ih h
      rw [insertExportControlRow_ok hr] at h2
      simpa [List.append_assoc] using h2

theorem insertAll_case_law_ok {rs : List CaseLawRow} {st st' : DbState}
    (h : insertAll insertCaseLawRow st rs = .ok st') :
    st' = { st with sanctions_case_law := st.sanctions_case_law ++ rs } := by
  induction rs generalizing st with
  | nil =>
    simp only [insertAll] at h
    simpa using (Except.ok.inj h).symm
  | cons r rest ih =>
    simp only [insertAll] at h
    cases hr : insertCaseLawRow st r with
    | error e => rw [hr] at h; cases h
    | ok st2 =>
      rw [hr] at h
      have h2 := ih h
      rw [insertCaseLawRow_ok hr] at h2
      simpa [List.append_assoc] using h2

theorem insertAll_freshness_ok {rs : List SourceFreshnessRow} {st st' : DbState}
    (h : insertAll insertFreshnessRow st rs = .ok st') :
    st' = { st with source_freshness := st.source_freshness ++ rs } := by
  induction rs generalizing st with
  | nil =>
    simp only [insertAll] at h
    simpa using (Except.ok.inj h).symm
  | cons r rest ih =>
    simp only [insertAll] at h
    cases hr : insertFreshnessRow st r with
    | error e => rw [hr] at h; cases h
    | ok st2 =>
      rw [hr] at h
      have h2 := ih h
      rw [insertFreshnessRow_ok hr] at h2
      simpa [List.append_assoc] using h2

/-- The state a fully successful seed run commits: every record of all
eight collections appended to its table. -/
def seededState (st : DbState) (seed : SanctionsSeed) : DbState :=
  { sources := st.sources ++ seed.sources.map SourceRecord.toRow,
    sanctions_regimes := st.sanctions_regimes ++ seed.sanctions_regimes.map SanctionsRegimeRecord.toRow,
    provisions := st.provisions ++ seed.provisions.map ProvisionRecord.toRow,
    executive_orders := st.executive_orders ++ seed.executive_orders.map ExecutiveOrderRecord.toRow,
    delisting_procedures := st.delisting_procedures ++ seed.delisting_procedures.map DelistingProcedureRecord.toRow,
    export_controls := st.export_controls ++ seed.export_controls.map ExportControlRecord.toRow,
    sanctions_case_law := st.sanctions_case_law ++ seed.sanctions_case_law.map SanctionsCaseLawRecord.toRow,
    source_freshness := st.source_freshness ++ seed.source_freshness.map SourceFreshnessRecord.toRow }

theorem seedTransactionBody_ok {st st' : DbState} {seed : SanctionsSeed}
    (h : seedTransactionBody st seed = .ok st') :
    st' = seededState st seed := by
  unfold seedTransactionBody at h
  simp only [bind, Except.bind, pure, Except.pure] at h
  cases h1 : insertAll insertSourceRow st (seed.sources.map SourceRecord.toRow) with
  | error e => rw [h1] at h; dsimp only at h; cases h
  | ok st1 =>
  rw [h1] at h
  dsimp only at h
  cases h2 : insertAll insertRegimeRow st1 (seed.sanctions_regimes.map SanctionsRegimeRecord.toRow) with
  | error e => rw [h2] at h; dsimp only at h; cases h
  | ok st2 =>
  rw [h2] at h
  dsimp only at h
  cases h3 : insertAll insertProvisionRow st2 (seed.provisions.map ProvisionRecord.toRow) with
  | error e => rw [h3] at h; dsimp only at h; cases h
  | ok st3 =>
  rw [h3] at h
  dsimp only at h
  cases h4 : insertAll insertExecutiveOrderRow st3 (seed.executive_orders.map ExecutiveOrderRecord.toRow) with
  | error e => rw [h4] at h; dsimp only at h; cases h
  | ok st4 =>
  rw [h4] at h
  dsimp only at h
  cases h5 : insertAll insertDelistingProcedureRow st4 (seed.delisting_procedures.map DelistingProcedureRecord.toRow) with
  | error e => rw [h5] at h; dsimp only at h; cases h
  | ok st5 =>
  rw [h5] at h
  dsimp only at h
  cases h6 : insertAll insertExportControlRow st5 (seed.export_controls.map ExportControlRecord.toRow) with
  | error e => rw [h6] at h; dsimp only at h; cases h
  | ok st6 =>
  rw [h6] at h
  dsimp only at h
  cases h7 : insertAll insertCaseLawRow st6 (seed.sanctions_case_law.map SanctionsCaseLawRecord.toRow) with
  | error e => rw [h7] at h; dsimp only at h; cases h
  | ok st7 =>
  rw [h7] at h
  dsimp only at h
  cases h8 : insertAll insertFreshnessRow st7 (seed.source_freshness.map SourceFreshnessRecord.toRow) with
  | error e => rw [h8] at h; dsimp only at h; cases h
  | ok st8 =>
  rw [h8] at h
  dsimp only at h
  have e1 := insertAll_sources_ok h1
  have e2 := insertAll_regimes_ok h2
  have e3 := insertAll_provisions_ok h3
  have e4 := insertAll_executive_orders_ok h4
  have e5 := insertAll_delisting_ok h5
  have e6 := insertAll_export_controls_ok h6
  have e7 := insertAll_case_law_ok h7
  have e8 := insertAll_freshness_ok h8
  have hst : st8 = st' := Except.ok.inj h
  subst e1 e2 e3 e4 e5 e6 e7 e8
  rw [← hst]
  rfl

/-- **C2**: `seedSanctionsDatabase` is atomic: all per-table inserts of a
seed run inside one transaction, so if any single insert fails (e.g. a
duplicate `(source_id, item_id)` pair or a dangling foreign key) the
database state afterwards is unchanged — no row of any table from that
seed is persisted; if no insert fails, every record of all eight
collections is persisted. -/
theorem seedSanctionsDatabase_atomic (st : DbState) (seed : SanctionsSeed) :
    ((seedSanctionsDatabase st seed).2.isSome → (seedSanctionsDatabase st seed).1 = st) ∧
    ((seedSanctionsDatabase st seed).2 = none →
      (seedSanctionsDatabase st seed).1 = seededState st seed) := by
  unfold seedSanctionsDatabase
  cases hb : seedTransactionBody st seed with
  | ok st2 =>
    refine ⟨fun hs => absurd hs (by simp), fun _ => ?_⟩
    exact seedTransactionBody_ok hb
  | error e =>
    exact ⟨fun _ => rfl, fun hn => by cases hn⟩

/-- The empty database (fresh schema, before any seeding). -/
def emptyDbState : DbState :=
  { sources := [], sanctions_regimes := [], provisions := [],
    executive_orders := [], delisting_procedures := [], export_controls := [],
    sanctions_case_law := [], source_freshness := [] }

/-- A minimal well-formed source record for concrete test databases. -/
def sampleSource : SourceRecord :=
  { id := "US_OFAC_EXECUTIVE_ORDERS", name := "OFAC Executive Orders",
    authority := "OFAC", official_portal := "https://ofac.treasury.gov",
    retrieval_method := "manual", update_frequency := "weekly",
    records_estimate := "40", priority := "critical",
    coverage_note := "orders", last_verified := "2026-01-01", metadata := none }

/-- A provision record keyed by `item_id`. -/
def sampleProvision (itemId : String) : ProvisionRecord :=
  { source_id := "US_OFAC_EXECUTIVE_ORDERS", item_id := itemId,
    title := "Blocking provision", text := "All property is blocked.",
    parent := none, kind := "executive_order_section", regime_id := none,
    issued_on := some "2015-04-01", url := "https://example.org/eo",
    topics := ["cyber"], metadata := none }

/-- A seed whose two provisions collide on `(source_id, item_id)`. -/
def dupProvisionSeed : SanctionsSeed :=
  { schema_version := "1", generated_on := "2026-01-01",
    sources := [sampleSource], sanctions_regimes := [],
    provisions := [sampleProvision "SEC_1", sampleProvision "SEC_1"],
    executive_orders := [], delisting_procedures := [], export_controls := [],
    sanctions_case_law := [], source_freshness := [] }

/-- The same seed with the collision removed. -/
def okProvisionSeed : SanctionsSeed :=
  { schema_version := "1", generated_on := "2026-01-01",
    sources := [sampleSource], sanctions_regimes := [],
    provisions := [sampleProvision "SEC_1", sampleProvision "SEC_2"],
    executive_orders := [], delisting_procedures := [], export_controls := [],
    sanctions_case_law := [], source_freshness := [] }

/-- Witness for C2: the duplicate-pair seed fails and leaves the empty
database untouched; the collision-free seed persists every record. -/
theorem seedSanctionsDatabase_atomic_witness :
    ((seedSanctionsDatabase emptyDbState dupProvisionSeed).2.isSome ∧
      (seedSanctionsDatabase emptyDbState dupProvisionSeed).1 = emptyDbState) ∧
    ((seedSanctionsDatabase emptyDbState okProvisionSeed).2 = none ∧
      (seedSanctionsDatabase emptyDbState okProvisionSeed).1 =
        seededState emptyDbState okProvisionSeed) :=
  ⟨⟨by decide, (seedSanctionsDatabase_atomic emptyDbState dupProvisionSeed).1 (by decide)⟩,
   ⟨by decide, (seedSanctionsDatabase_atomic emptyDbState okProvisionSeed).2 (by decide)⟩⟩

/-! ## Freshness evaluator (`src/tools/check-data-freshness.ts`) -/

/-- The value of `ageInDays`: `Number.POSITIVE_INFINITY` for unparseable
dates, otherwise the non-negative whole number of elapsed days. -/
inductive AgeDays where
  | infinite
  | finite (n : Nat)
deriving DecidableEq

/-- The `'fresh' | 'warning' | 'stale' | 'planned'` union. -/
inductive FreshnessStatus where
  | fresh
  | warning
  | stale
  | planned
deriving DecidableEq

/-- `evaluateStatus` from `check-data-freshness.ts`. -/
def evaluateStatus (ageDays : AgeDays) (expectedMaxAgeDays : Nat) : FreshnessStatus :=
  match ageDays with
  | .infinite => .planned
  | .finite n =>
    if n ≤ expectedMaxAgeDays then .fresh
    else if n ≤ expectedMaxAgeDays * 2 then .warning
    else .stale

/-- The JavaScript comparison `ageDays <= maxAgeDays` (false against NaN,
true against `Infinity` on the right, and `Infinity <= finite` is false). -/
def ageLeJs (ageDays : AgeDays) (maxAgeDays : JSNumber) : Bool :=
  match maxAgeDays with
  | .nan => false
  | .posInf => true
  | .negInf => false
  | .num q =>
    match ageDays with
    | .infinite => false
    | .finite n => (n : ℚ) ≤ q

/-- `CheckDataFreshnessInput`. -/
structure CheckDataFreshnessInput where
  max_age_days : Option JSNumber
  as_of : Option String
  status : Option FreshnessStatus

/-- A row of the `source_freshness ⋈ sources` query in
`checkDataFreshness`. -/
structure FreshnessJoinRow where
  source_id : String
  source_name : String
  check_frequency : String
  last_checked : String
  last_updated : String
  declared_status : String
  notes : String
deriving DecidableEq

/-- `FreshnessEntry`. -/
structure FreshnessEntry where
  source_id : String
  source_name : String
  check_frequency : String
  last_checked : String
  last_updated : String
  declared_status : String
  expected_max_age_days : Nat
  age_days : AgeDays
  evaluated_status : FreshnessStatus
  is_within_max_age : Bool
  notes : String
deriving DecidableEq

/-- A `FreshnessEntry` with the `is_within_max_age` field dropped (used to
state that `max_age_days` influences nothing else). -/
structure FreshnessEntryCore where
  source_id : String
  source_name : String
  check_frequency : String
  last_checked : String
  last_updated : String
  declared_status : String
  expected_max_age_days : Nat
  age_days : AgeDays
  evaluated_status : FreshnessStatus
  notes : String
deriving DecidableEq

/-- Forget `is_within_max_age`. -/
def FreshnessEntry.core (e : FreshnessEntry) : FreshnessEntryCore :=
  { source_id := e.source_id, source_name := e.source_name,
    check_frequency := e.check_frequency, last_checked := e.last_checked,
    last_updated := e.last_updated, declared_status := e.declared_status,
    expected_max_age_days := e.expected_max_age_days, age_days := e.age_days,
    evaluated_status := e.evaluated_status, notes := e.notes }

/-- The totals accumulator of `checkDataFreshness`. -/
structure FreshnessTotals where
  fresh : Nat
  warning : Nat
  stale : Nat
  planned : Nat
deriving DecidableEq

/-- `CheckDataFreshnessResult`. -/
structure CheckDataFreshnessResult where
  as_of : String
  max_age_days : JSNumber
  totals : FreshnessTotals
  entries : List FreshnessEntry
deriving DecidableEq

/-- The SQL of `checkDataFreshness`:
`source_freshness JOIN sources ON s.id = sf.source_id ORDER BY s.id`. -/
def freshnessJoinRows (db : DbState) : List FreshnessJoinRow :=
  (db.source_freshness.filterMap (fun sf =>
    (db.sources.find? (fun s => s.id == sf.source_id)).map (fun s =>
      ({ source_id := sf.source_id, source_name := s.name,
         check_frequency := sf.check_frequency, last_checked := sf.last_checked,
         last_updated := sf.last_updated, declared_status := sf.status,
         notes := sf.notes } : FreshnessJoinRow)))).mergeSort
    (fun a b => strLeb a.source_id b.source_id)

/-- The `rows.map` callback of `checkDataFreshness`. -/
def mkFreshnessEntry (ageInDays : String → String → AgeDays) (asOf : String)
    (maxAgeDays : JSNumber) (row : FreshnessJoinRow) : FreshnessEntry :=
  let expectedMaxAgeDays := SanctionsUtils.frequencyThresholdDays row.check_frequency
  let ageDays := ageInDays row.last_updated asOf
  { source_id := row.source_id, source_name := row.source_name,
    check_frequency := row.check_frequency, last_checked := row.last_checked,
    last_updated := row.last_updated, declared_status := row.declared_status,
    expected_max_age_days := expectedMaxAgeDays, age_days := ageDays,
    evaluated_status := evaluateStatus ageDays expectedMaxAgeDays,
    is_within_max_age := ageLeJs ageDays maxAgeDays, notes := row.notes }

/-- One step of the totals `reduce`. -/
def freshnessTotalsStep (acc : FreshnessTotals) (entry : FreshnessEntry) : FreshnessTotals :=
  match entry.evaluated_status with
  | .fresh => { acc with fresh := acc.fresh + 1 }
  | .warning => { acc with warning := acc.warning + 1 }
  | .stale => { acc with stale := acc.stale + 1 }
  | .planned => { acc with planned := acc.planned + 1 }

/-- `checkDataFreshness` from `check-data-freshness.ts`.  `ageInDays`
abstracts the JavaScript `Date` arithmetic of
`sanctions-utils.ts`/`ageInDays`; `todayIso` is the
`new Date().toISOString().slice(0, 10)` default for `as_of`. -/
def checkDataFreshness (ageInDays : String → String → AgeDays) (db : DbState)
    (input : CheckDataFreshnessInput) (todayIso : String) : CheckDataFreshnessResult :=
  let asOf := input.as_of.getD todayIso
  let maxAgeDays : JSNumber :=
    match input.max_age_days with
    | some m => mathMax (.num 1) (mathFloor m)
    | none => .num 45
  let rows := freshnessJoinRows db
  let entries := (rows.map (mkFreshnessEntry ageInDays asOf maxAgeDays)).filter
    (fun entry =>
      match input.status with
      | some s => entry.evaluated_status == s
      | none => true)
  { as_of := asOf, max_age_days := maxAgeDays,
    totals := entries.foldl freshnessTotalsStep ⟨0, 0, 0, 0⟩,
    entries := entries }

theorem foldl_totals_congr :
    ∀ {l₁ l₂ : List FreshnessEntry},
      l₁.map FreshnessEntry.evaluated_status = l₂.map FreshnessEntry.evaluated_status →
      ∀ acc, l₁.foldl freshnessTotalsStep acc = l₂.foldl freshnessTotalsStep acc := by
  intro l₁
  induction l₁ with
  | nil =>
    intro l₂ h acc
    cases l₂ with
    | nil => rfl
    | cons e es => simp at h
  | cons e es ih =>
    intro l₂ h acc
    cases l₂ with
    | nil => simp at h
    | cons e' es' =>
      simp only [List.map_cons, List.cons.injEq] at h
      obtain ⟨h1, h2⟩ := h
      simp only [List.foldl_cons]
      rw [show freshnessTotalsStep acc e = freshnessTotalsStep acc e' by
        unfold freshnessTotalsStep; rw [h1]]
      exact ih h2 (freshnessTotalsStep acc e')

/-- **C9**: two runs of `checkDataFreshness` on the same database with the
same `as_of` and status filter but different `max_age_days` values produce
identical entries up to the `is_within_max_age` flag (in particular the
same `evaluated_status` for every entry and the same entry set), identical
totals, and the same `as_of`; `max_age_days` influences only the per-entry
`is_within_max_age` boolean and the echoed `max_age_days` field. -/
theorem checkDataFreshness_max_age_days_noninterference
    (ageInDays : String → String → AgeDays) (db : DbState)
    (asOf : Option String) (statusFilter : Option FreshnessStatus)
    (m₁ m₂ : Option JSNumber) (todayIso : String) :
    (checkDataFreshness ageInDays db ⟨m₁, asOf, statusFilter⟩ todayIso).entries.map
        FreshnessEntry.core =
      (checkDataFreshness ageInDays db ⟨m₂, asOf, statusFilter⟩ todayIso).entries.map
        FreshnessEntry.core ∧
    (checkDataFreshness ageInDays db ⟨m₁, asOf, statusFilter⟩ todayIso).totals =
      (checkDataFreshness ageInDays db ⟨m₂, asOf, statusFilter⟩ todayIso).totals ∧
    (checkDataFreshness ageInDays db ⟨m₁, asOf, statusFilter⟩ todayIso).as_of =
      (checkDataFreshness ageInDays db ⟨m₂, asOf, statusFilter⟩ todayIso).as_of := by
  refine ⟨?_, ?_, rfl⟩
  · dsimp only [checkDataFreshness]
    rw [List.filter_map, List.filter_map, List.map_map, List.map_map]
    rfl
  · dsimp only [checkDataFreshness]
    apply foldl_totals_congr
    rw [List.filter_map, List.filter_map, List.map_map, List.map_map]
    rfl

/-- **C1**: for every source-freshness row returned by
`checkDataFreshness`, `evaluated_status` follows exactly the spec's rule
with `threshold = frequencyThresholdDays(check_frequency)`
(`daily→30, weekly→60, monthly→120, on_change→90`, default `30`): a
non-finite `age_days` yields `planned`, `age_days ≤ threshold` yields
`fresh`, `threshold < age_days ≤ 2×threshold` yields `warning`, and
`age_days > 2×threshold` yields `stale`. -/
theorem checkDataFreshness_evaluated_status_rule
    (ageInDays : String → String → AgeDays) (db : DbState)
    (input : CheckDataFreshnessInput) (todayIso : String) :
    (SanctionsUtils.frequencyThresholdDays "daily" = 30 ∧
     SanctionsUtils.frequencyThresholdDays "weekly" = 60 ∧
     SanctionsUtils.frequencyThresholdDays "monthly" = 120 ∧
     SanctionsUtils.frequencyThresholdDays "on_change" = 90) ∧
    (∀ f : String, f ∉ (["daily", "weekly", "monthly", "on_change"] : List String) →
      SanctionsUtils.frequencyThresholdDays f = 30) ∧
    (∀ e ∈ (checkDataFreshness ageInDays db input todayIso).entries,
      e.expected_max_age_days = SanctionsUtils.frequencyThresholdDays e.check_frequency ∧
      (e.age_days = AgeDays.infinite → e.evaluated_status = FreshnessStatus.planned) ∧
      (∀ n, e.age_days = AgeDays.finite n →
        ((n ≤ e.expected_max_age_days → e.evaluated_status = FreshnessStatus.fresh) ∧
         (e.expected_max_age_days < n → n ≤ 2 * e.expected_max_age_days →
            e.evaluated_status = FreshnessStatus.warning) ∧
         (2 * e.expected_max_age_days < n → e.evaluated_status = FreshnessStatus.stale)))) := by
  refine ⟨⟨by decide, by decide, by decide, by decide⟩, ?_, ?_⟩
  · intro f hf
    simp only [List.mem_cons, List.not_mem_nil, or_false, not_or] at hf
    obtain ⟨h1, h2, h3, h4⟩ := hf
    simp [SanctionsUtils.frequencyThresholdDays, h1, h2, h3, h4]
  · intro e he
    dsimp only [checkDataFreshness] at he
    rw [List.mem_filter] at he
    obtain ⟨hmap, -⟩ := he
    rw [List.mem_map] at hmap
    obtain ⟨row, -, hrow⟩ := hmap
    subst hrow
    refine ⟨rfl, ?_, ?_⟩
    · intro hinf
      dsimp only [mkFreshnessEntry] at hinf ⊢
      rw [hinf]
      rfl
    · intro n hn
      dsimp only [mkFreshnessEntry] at hn ⊢
      rw [hn]
      refine ⟨?_, ?_, ?_⟩
      · intro hle
        simp [evaluateStatus, hle]
      · intro hgt hle2
        have hnle : ¬ n ≤ SanctionsUtils.frequencyThresholdDays row.check_frequency := by omega
        have hle2' : n ≤ SanctionsUtils.frequencyThresholdDays row.check_frequency * 2 := by omega
        simp [evaluateStatus, hnle, hle2']
      · intro hgt2
        have hnle : ¬ n ≤ SanctionsUtils.frequencyThresholdDays row.check_frequency := by omega
        have hnle2 : ¬ n ≤ SanctionsUtils.frequencyThresholdDays row.check_frequency * 2 := by omega
        simp [evaluateStatus, hnle, hnle2]

/-- A concrete `source_freshness` row for the C1 witness database. -/
def freshnessWitnessRow : SourceFreshnessRow :=
  { source_id := "US_OFAC_EXECUTIVE_ORDERS", last_checked := "2026-01-01",
    last_updated := "2025-11-17", check_frequency := "daily",
    status := "active", notes := "" }

/-- One source with one freshness row. -/
def freshnessWitnessDb : DbState :=
  { emptyDbState with
    sources := [sampleSource.toRow],
    source_freshness := [freshnessWitnessRow] }

/-- A date-arithmetic oracle that reports every age as 45 days. -/
def constAge45 : String → String → AgeDays := fun _ _ => .finite 45

/-- The entry `checkDataFreshness` produces for the C1 witness database. -/
def freshnessWitnessEntry : FreshnessEntry :=
  { source_id := "US_OFAC_EXECUTIVE_ORDERS", source_name := "OFAC Executive Orders",
    check_frequency := "daily", last_checked := "2026-01-01",
    last_updated := "2025-11-17", declared_status := "active",
    expected_max_age_days := 30, age_days := .finite 45,
    evaluated_status := .warning, is_within_max_age := true, notes := "" }

/-- Concrete evaluation of the C1 witness run: exactly one entry. -/
theorem freshnessWitness_entries :
    (checkDataFreshness constAge45 freshnessWitnessDb
      ⟨none, some "2026-01-01", none⟩ "2026-01-01").entries = [freshnessWitnessEntry] := by
  simp [checkDataFreshness, freshnessJoinRows, freshnessWitnessDb, emptyDbState,
    freshnessWitnessRow, sampleSource, SourceRecord.toRow, optionalJson,
    List.mergeSort_singleton, mkFreshnessEntry, constAge45, freshnessWitnessEntry,
    evaluateStatus, ageLeJs, SanctionsUtils.frequencyThresholdDays]

/-- Witness for C1: with frequency `daily` (threshold 30) and an age of 45
days, the produced entry is classified `warning`; an unrecognized frequency
maps to threshold 30. -/
theorem checkDataFreshness_evaluated_status_rule_witness :
    SanctionsUtils.frequencyThresholdDays "yearly" = 30 ∧
    freshnessWitnessEntry ∈
      (checkDataFreshness constAge45 freshnessWitnessDb
        ⟨none, some "2026-01-01", none⟩ "2026-01-01").entries ∧
    freshnessWitnessEntry.evaluated_status = FreshnessStatus.warning :=
  ⟨(checkDataFreshness_evaluated_status_rule constAge45 freshnessWitnessDb
      ⟨none, some "2026-01-01", none⟩ "2026-01-01").2.1 "yearly" (by decide),
   by rw [freshnessWitness_entries]; exact List.mem_singleton.mpr rfl,
   (((checkDataFreshness_evaluated_status_rule constAge45 freshnessWitnessDb
        ⟨none, some "2026-01-01", none⟩ "2026-01-01").2.2
      freshnessWitnessEntry
        (by rw [freshnessWitness_entries]; exact List.mem_singleton.mpr rfl)).2.2
      45 (by decide)).2.1 (by decide) (by decide)⟩

/-! ## Full-text search (`src/tools/search-sanctions-law.ts`) -/

/-- `SearchSanctionsLawInput` (optional/possibly-absent fields as `Option`). -/
structure SearchSanctionsLawInput where
  query : Option String
  source_ids : Option (List String)
  jurisdictions : Option (List String)
  regime_id : Option String
  topics : Option (List String)
  limit : Option JSNumber

/-- A row of the `provisions_fts MATCH ? JOIN provisions JOIN sources
LEFT JOIN sanctions_regimes` query, including the computed `snippet` and
`bm25` columns and the regime's `jurisdiction` (consulted by the SQL
`WHERE` clause though not selected). -/
structure SearchJoinRow where
  source_id : String
  source_name : String
  item_id : String
  kind : String
  title : String
  snippet : String
  relevance : ℚ
  regime_id : Option String
  regime_name : Option String
  regime_jurisdiction : Option String
  issued_on : Option String
  official_url : String
  topics : String
deriving DecidableEq

/-- `SearchSanctionsLawResult`. -/
structure SearchSanctionsLawResult where
  source_id : String
  source_name : String
  item_id : String
  kind : String
  title : String
  snippet : String
  relevance : ℚ
  regime_id : Option String
  regime_name : Option String
  issued_on : Option String
  official_url : String
  topics : List String
deriving DecidableEq

/-- The FTS5 backend: for a (syntactically valid) match query, the joined
candidate rows in `bm25` ascending order.  Virtual-table matching and
ranking live inside SQLite; the model treats them as an oracle and applies
the remaining `WHERE` filters, the `ORDER BY` and the `LIMIT` row by row. -/
structure SearchDb where
  ftsMatch : String → List SearchJoinRow

/-- SQL `LIMIT ?` with a bound JavaScript number (always a finite integer
in `[1, 50]` on every reachable path). -/
def sqlLimitTake {α : Type} (n : JSNumber) (rows : List α) : List α :=
  match n with
  | .num q => rows.take (⌊q⌋).toNat
  | _ => rows

/-- The `MATCH` argument `searchSanctionsLaw` computes:
`escapeFts5Query(input.query.trim())`. -/
def safeQueryOf (query : String) : String :=
  SanctionsUtils.escapeFts5Query (jsTrim query)

/-- The filter / sort pipeline of `searchSanctionsLaw` (everything between
`WHERE provisions_fts MATCH ?` and `LIMIT ?`). -/
def searchRowsPipeline (db : SearchDb) (input : SearchSanctionsLawInput)
    (safeQuery : String) : List SearchJoinRow :=
  let sourceIds := SanctionsUtils.normalizeStringArray input.source_ids
  let jurisdictions := SanctionsUtils.normalizeStringArray input.jurisdictions
  let topics := (SanctionsUtils.normalizeStringArray input.topics).map jsToLower
  let rows := db.ftsMatch safeQuery
  let rows := if sourceIds.isEmpty then rows
    else rows.filter (fun r => sourceIds.contains r.source_id)
  let rows := if jurisdictions.isEmpty then rows
    else rows.filter (fun r => jurisdictions.contains (r.regime_jurisdiction.getD ""))
  let rows : List SearchJoinRow :=
    match input.regime_id with
    | some rid =>
      if rid != "" && jsTrim rid != "" then
        rows.filter (fun r => r.regime_id == some (jsTrim rid))
      else rows
    | none => rows
  let rows := if topics.isEmpty then rows
    else rows.filter (fun r =>
      topics.any (fun t => likeMatch (SanctionsUtils.sqlLikePattern t) (jsToLower r.topics)))
  rows.mergeSort (fun a b => a.relevance ≤ b.relevance)

/-- The result-shaping `rows.map` of `searchSanctionsLaw`. -/
def mkSearchResult (jsonParse : String → Option Json) (row : SearchJoinRow) :
    SearchSanctionsLawResult :=
  { source_id := row.source_id, source_name := row.source_name,
    item_id := row.item_id, kind := row.kind, title := row.title,
    snippet := row.snippet, relevance := row.relevance,
    regime_id := row.regime_id, regime_name := row.regime_name,
    issued_on := row.issued_on, official_url := row.official_url,
    topics := parseJsonArray jsonParse (some row.topics) }

/-- `searchSanctionsLaw` from `search-sanctions-law.ts`. -/
def searchSanctionsLaw (jsonParse : String → Option Json) (db : SearchDb)
    (input : SearchSanctionsLawInput) : List SearchSanctionsLawResult :=
  match input.query with
  | none => []
  | some q =>
    if q == "" || jsTrim q == "" then []
    else
      let safeQuery := safeQueryOf q
      if safeQuery == "" then []
      else
        let limit := SanctionsUtils.normalizeLimit input.limit SanctionsUtils.DEFAULT_LIMIT
        (sqlLimitTake limit (searchRowsPipeline db input safeQuery)).map
          (mkSearchResult jsonParse)

/-! ## Single-provision lookup (`src/tools/get-provision.ts`) -/

/-- `GetProvisionInput` (both key parts possibly absent at runtime; the
source guards with `?.trim()`). -/
structure GetProvisionInput where
  source_id : Option String
  item_id : Option String
  include_related : Option Bool

/-- `RelatedProvision`. -/
structure RelatedProvision where
  source_id : String
  item_id : String
  title : String
  kind : String
  regime_id : Option String
  official_url : String
deriving DecidableEq

/-- `ProvisionDetail`. -/
structure ProvisionDetail where
  source_id : String
  source_name : String
  item_id : String
  title : String
  text : String
  parent : Option String
  kind : String
  regime_id : Option String
  regime_name : Option String
  issued_on : Option String
  official_url : String
  topics : List String
  metadata : Option Json
  related : Option (List RelatedProvision)

/-- `RELATED_LIMIT` from `get-provision.ts`. -/
def RELATED_LIMIT : Nat := 5

/-- SQLite `ORDER BY issued_on DESC, item_id ASC` treats NULL as the
smallest value, so NULL `issued_on` sorts last under DESC. -/
def optStrLt : Option String → Option String → Bool
  | none, none => false
  | none, some _ => true
  | some _, none => false
  | some a, some b => strLtb a b

/-- Comparator for `ORDER BY issued_on DESC, item_id ASC` on provisions. -/
def provisionRecencyLe (a b : ProvisionRow) : Bool :=
  optStrLt b.issued_on a.issued_on ||
    (a.issued_on == b.issued_on && strLeb a.item_id b.item_id)

/-- `SELECT … url AS official_url` projection used by the related queries. -/
def ProvisionRow.toRelated (p : ProvisionRow) : RelatedProvision :=
  { source_id := p.source_id, item_id := p.item_id, title := p.title,
    kind := p.kind, regime_id := p.regime_id, official_url := p.url }

/-- `getRelatedProvisions` from `get-provision.ts`. -/
def getRelatedProvisions (db : DbState) (sourceId itemId : String)
    (regimeId : Option String) (topics : List String) : List RelatedProvision :=
  if (match regimeId with | some rid => rid != "" | none => false) then
    let rid := regimeId.getD ""
    (((db.provisions.filter (fun p =>
        p.regime_id == some rid &&
          !(p.source_id == sourceId && p.item_id == itemId))).mergeSort
      provisionRecencyLe).take RELATED_LIMIT).map ProvisionRow.toRelated
  else
    match topics with
    | [] => []
    | primary :: _ =>
      let primaryTopic := jsToLower primary
      (((db.provisions.filter (fun p =>
          likeMatch (SanctionsUtils.sqlLikePattern primaryTopic) (jsToLower p.topics) &&
            !(p.source_id == sourceId && p.item_id == itemId))).mergeSort
        provisionRecencyLe).take RELATED_LIMIT).map ProvisionRow.toRelated

/-- The `LEFT JOIN sanctions_regimes` name lookup. -/
def regimeNameOf (db : DbState) (regimeId : Option String) : Option String :=
  regimeId.bind (fun rid =>
    (db.sanctions_regimes.find? (fun r => r.id == rid)).map (fun r => r.name))

/-- `getProvision` from `get-provision.ts`: throws on a missing or blank
key part, returns `null` (here `.ok none`) when the lookup matches no row. -/
def getProvision (jsonParse : String → Option Json) (db : DbState)
    (input : GetProvisionInput) : Except String (Option ProvisionDetail) :=
  let sourceId := input.source_id.map jsTrim
  let itemId := input.item_id.map jsTrim
  match sourceId with
  | none => .error "source_id is required"
  | some sid =>
    if sid == "" then .error "source_id is required"
    else
      match itemId with
      | none => .error "item_id is required"
      | some iid =>
        if iid == "" then .error "item_id is required"
        else
          match (db.provisions.find? (fun p =>
              p.source_id == sid && p.item_id == iid)).bind (fun p =>
                (db.sources.find? (fun s => s.id == p.source_id)).map (fun s => (p, s))) with
          | none => .ok none
          | some (p, s) =>
            let topics := parseJsonArray jsonParse (some p.topics)
            let metadata := parseJsonField jsonParse p.metadata
            let related :=
              if (match input.include_related with | some b => b | none => false) then
                some (getRelatedProvisions db p.source_id p.item_id p.regime_id topics)
              else none
            .ok (some
              { source_id := p.source_id, source_name := s.name, item_id := p.item_id,
                title := p.title, text := p.text, parent := p.parent, kind := p.kind,
                regime_id := p.regime_id, regime_name := regimeNameOf db p.regime_id,
                issued_on := p.issued_on, official_url := p.url,
                topics := topics, metadata := metadata, related := related })

/-- **C4**: failure semantics of required fields: `searchSanctionsLaw` with
a missing or blank (whitespace-only) query returns an empty list without
signalling an error, whereas `getProvision` with a missing or blank
`source_id` or `item_id` signals an explicit input error with a
descriptive message; and a well-formed `getProvision` lookup matching zero
rows returns `null` rather than an error. -/
theorem requiredField_failure_semantics
    (jsonParse : String → Option Json) (sdb : SearchDb) (db : DbState) :
    (∀ input : SearchSanctionsLawInput,
      (match input.query with
       | none => True
       | some q => jsTrim q = "") →
      searchSanctionsLaw jsonParse sdb input = []) ∧
    (∀ input : GetProvisionInput,
      (match input.source_id with
       | none => True
       | some s => jsTrim s = "") →
      ∃ msg, getProvision jsonParse db input = .error msg) ∧
    (∀ input : GetProvisionInput,
      (match input.item_id with
       | none => True
       | some s => jsTrim s = "") →
      ∃ msg, getProvision jsonParse db input = .error msg) ∧
    (∀ (input : GetProvisionInput) (sid iid : String),
      input.source_id = some sid → jsTrim sid ≠ "" →
      input.item_id = some iid → jsTrim iid ≠ "" →
      (db.provisions.find? (fun p =>
          p.source_id == jsTrim sid && p.item_id == jsTrim iid)).bind (fun p =>
            (db.sources.find? (fun s => s.id == p.source_id)).map (fun s => (p, s))) = none →
      getProvision jsonParse db input = .ok none) := by
  refine ⟨?_, ?_, ?_, ?_⟩
  · intro input h
    cases hq : input.query with
    | none => simp [searchSanctionsLaw, hq]
    | some q =>
      rw [hq] at h
      simp [searchSanctionsLaw, hq, h]
  · intro input h
    cases hs : input.source_id with
    | none => exact ⟨"source_id is required", by simp [getProvision, hs]⟩
    | some s =>
      rw [hs] at h
      exact ⟨"source_id is required", by simp [getProvision, hs, h]⟩
  · intro input h
    cases hs : input.source_id with
    | none => exact ⟨"source_id is required", by simp [getProvision, hs]⟩
    | some s =>
      by_cases hb : jsTrim s = ""
      · exact ⟨"source_id is required", by simp [getProvision, hs, hb]⟩
      · cases hi : input.item_id with
        | none => exact ⟨"item_id is required", by simp [getProvision, hs, hi, hb]⟩
        | some i =>
          rw [hi] at h
          exact ⟨"item_id is required", by simp [getProvision, hs, hi, hb, h]⟩
  · intro input sid iid hsid hsb hiid hib hfind
    simp [getProvision, hsid, hiid, hsb, hib, hfind]

/-- A `JSON.parse` oracle that always throws (the most adversarial choice
for witnesses whose claims must hold for every parse behavior). -/
def jsonParseNone : String → Option Json := fun _ => none

/-- A search backend with no matching rows. -/
def emptySearchDb : SearchDb := ⟨fun _ => []⟩

/-- Witness for C4: a whitespace-only query yields `[]`; a blank
`source_id` and a missing `item_id` each yield an error; a lookup that
matches no row yields `.ok none`. -/
theorem requiredField_failure_semantics_witness :
    searchSanctionsLaw jsonParseNone emptySearchDb
      ⟨some "   ", none, none, none, none, none⟩ = [] ∧
    (∃ msg, getProvision jsonParseNone freshnessWitnessDb
      ⟨some "   ", some "X", none⟩ = .error msg) ∧
    (∃ msg, getProvision jsonParseNone freshnessWitnessDb
      ⟨some "S", none, none⟩ = .error msg) ∧
    getProvision jsonParseNone freshnessWitnessDb
      ⟨some "US_OFAC_EXECUTIVE_ORDERS", some "NOPE", none⟩ = .ok none :=
  ⟨(requiredField_failure_semantics jsonParseNone emptySearchDb freshnessWitnessDb).1
      ⟨some "   ", none, none, none, none, none⟩ (by decide),
   (requiredField_failure_semantics jsonParseNone emptySearchDb freshnessWitnessDb).2.1
      ⟨some "   ", some "X", none⟩ (by decide),
   (requiredField_failure_semantics jsonParseNone emptySearchDb freshnessWitnessDb).2.2.1
      ⟨some "S", none, none⟩ (by decide),
   (requiredField_failure_semantics jsonParseNone emptySearchDb freshnessWitnessDb).2.2.2
      ⟨some "US_OFAC_EXECUTIVE_ORDERS", some "NOPE", none⟩ "US_OFAC_EXECUTIVE_ORDERS" "NOPE"
      rfl (by decide) rfl (by decide) (by decide)⟩

/-! ## FTS5 escaping and quote balance (claim C3) -/

theorem mem_trimChars {c : Char} {l : List Char} (h : c ∈ trimChars l) : c ∈ l := by
  simp only [trimChars, List.mem_reverse] at h
  have h2 := (List.dropWhile_sublist (l := (l.dropWhile isJsWhitespace).reverse)
    (p := isJsWhitespace)).subset h
  rw [List.mem_reverse] at h2
  exact (List.dropWhile_sublist (l := l) (p := isJsWhitespace)).subset h2

theorem count_dropWhile_eq {p : Char → Bool} {c : Char} (hc : p c = false) :
    ∀ l : List Char, (l.dropWhile p).count c = l.count c := by
  intro l
  induction l with
  | nil => rfl
  | cons a l ih =>
    cases hpa : p a with
    | false => simp [List.dropWhile_cons, hpa]
    | true =>
      have hac : (a == c) = false := by
        rcases eq_or_ne a c with rfl | hne
        · rw [hc] at hpa; cases hpa
        · simpa using hne
      simp [List.dropWhile_cons, hpa, List.count_cons, hac, ih]

theorem count_trimChars {c : Char} (hc : isJsWhitespace c = false) (l : List Char) :
    (trimChars l).count c = l.count c := by
  unfold trimChars
  rw [List.count_reverse, count_dropWhile_eq hc, List.count_reverse, count_dropWhile_eq hc]

/-- Quote-count parity carried by each scanner state. -/
def ftsParity : FtsScanState → Nat
  | .outside => 0
  | .inside => 1
  | .insideQuote => 0

theorem ftsAccept_eq_parity (s : FtsScanState) : ftsAccept s = (ftsParity s == 0) := by
  cases s <;> rfl

theorem foldl_ftsStep_parity (l : List Char) (s : FtsScanState) :
    ftsParity (l.foldl ftsStep s) % 2 = (ftsParity s + l.count '"') % 2 := by
  induction l generalizing s with
  | nil => simp
  | cons c l ih =>
    rw [List.foldl_cons, ih]
    rcases eq_or_ne c '"' with rfl | hc
    · cases s <;> · simp [ftsStep, ftsParity, List.count_cons]; try omega
    · have hcq : (c == '"') = false := by simpa using hc
      cases s <;> simp [ftsStep, ftsParity, hcq, List.count_cons]

theorem ftsQuotesBalanced_iff_even (s : String) :
    ftsQuotesBalanced s = (s.data.count '"' % 2 == 0) := by
  unfold ftsQuotesBalanced
  rw [ftsAccept_eq_parity]
  have h := foldl_ftsStep_parity s.data .outside
  have h2 : ∀ st : FtsScanState, (ftsParity st == 0) = (ftsParity st % 2 == 0) := by
    intro st; cases st <;> rfl
  rw [h2, h]
  simp [ftsParity]

theorem count_quote_escape (l : List Char) (h : ∀ c ∈ l, c ≠ '"') :
    (l.flatMap SanctionsUtils.escapeFts5Char).count '"' % 2 = 0 := by
  induction l with
  | nil => simp
  | cons c l ih =>
    have hc : c ≠ '"' := h c (by simp)
    have hcq : (c == '"') = false := by simpa using hc
    have ih' := ih (fun x hx => h x (by simp [hx]))
    rw [List.flatMap_cons, List.count_append]
    have hesc : (SanctionsUtils.escapeFts5Char c).count '"' =
        if SanctionsUtils.fts5SpecialChar c then 2 else 0 := by
      unfold SanctionsUtils.escapeFts5Char
      split
      · simp [List.count_cons, hcq]
      · simp [List.count_cons, hcq]
    rw [hesc]
    split <;> omega

theorem escapeFts5Query_balanced {q : String} (h : ∀ c ∈ q.data, c ≠ '"') :
    ftsQuotesBalanced (SanctionsUtils.escapeFts5Query q) = true := by
  rw [ftsQuotesBalanced_iff_even]
  unfold SanctionsUtils.escapeFts5Query
  have hdata : (String.mk (trimChars (q.data.flatMap SanctionsUtils.escapeFts5Char))).data =
      trimChars (q.data.flatMap SanctionsUtils.escapeFts5Char) := rfl
  rw [hdata, count_trimChars (by decide), count_quote_escape q.data h]
  rfl

/-- **C3 (amended)**: the `MATCH` argument `searchSanctionsLaw` computes via
`safeQueryOf` quotes each of `( ) ^ * :` individually, and for every input
containing no double-quote character its phrase quoting is balanced, so it
cannot trip the FTS5 unterminated-string syntax error; the double-quote
character itself is, however, not neutralized. -/
theorem safeQueryOf_balanced_of_no_quote (q : String)
    (h : ∀ c ∈ q.data, c ≠ '"') :
    ftsQuotesBalanced (safeQueryOf q) = true := by
  unfold safeQueryOf
  apply escapeFts5Query_balanced
  intro c hc
  exact h c (mem_trimChars hc)

/-- Witness for C3 (amended): a concrete query with every special character
escapes to a balanced match string. -/
theorem safeQueryOf_balanced_of_no_quote_witness :
    ftsQuotesBalanced (safeQueryOf "cyber (sanctions)^*: EU") = true :=
  safeQueryOf_balanced_of_no_quote "cyber (sanctions)^*: EU" (by decide)

/-- Counterexample to C3 as stated: the single-character query `"` passes
through `escapeFts5Query` unchanged (it is non-empty, so
`searchSanctionsLaw` sends it to `MATCH`), and its phrase quoting is
unbalanced — an FTS5 syntax error, so arbitrary user text *can* break the
match-query syntax. -/
theorem safeQueryOf_quote_unbalanced :
    safeQueryOf "\"" = "\"" ∧ (safeQueryOf "\"" == "") = false ∧
    ftsQuotesBalanced (safeQueryOf "\"") = false :=
  ⟨by decide, by decide, by decide⟩

/-! ## Limit normalization and result caps (claim C8) -/

theorem mathMax_num (a b : ℚ) : mathMax (.num a) (.num b) = .num (max a b) := by
  by_cases h : a ≤ b
  · simp [mathMax, jsLeB, JSNumber.isNaNb, h, max_eq_right h]
  · have h' := le_of_not_le h
    simp [mathMax, jsLeB, JSNumber.isNaNb, h, max_eq_left h']

theorem mathMin_num (a b : ℚ) : mathMin (.num a) (.num b) = .num (min a b) := by
  by_cases h : a ≤ b
  · simp [mathMin, jsLeB, JSNumber.isNaNb, h, min_eq_left h]
  · have h' := le_of_not_le h
    simp [mathMin, jsLeB, JSNumber.isNaNb, h, min_eq_right h']

theorem normalizeLimit_num (q d : ℚ) :
    SanctionsUtils.normalizeLimit (some (.num q)) d =
      .num (min (max ((⌊q⌋ : ℤ) : ℚ) 1) 50) := by
  simp [SanctionsUtils.normalizeLimit, JSNumber.isNaNb, mathFloor, mathMax_num,
    mathMin_num, SanctionsUtils.MAX_LIMIT]

theorem searchSanctionsLaw_length_le
    (jsonParse : String → Option Json) (sdb : SearchDb)
    (input : SearchSanctionsLawInput) (k : ℚ)
    (hk : SanctionsUtils.normalizeLimit input.limit SanctionsUtils.DEFAULT_LIMIT = .num k) :
    (searchSanctionsLaw jsonParse sdb input).length ≤ (⌊k⌋).toNat := by
  unfold searchSanctionsLaw
  cases input.query with
  | none => simp
  | some q =>
    split
    · simp
    · split
      · simp
      · rw [hk]
        simp only [sqlLimitTake]
        split
        · simp
        · simp [List.length_take]

/-- **C8 (amended)**: `normalizeLimit` maps every finite numeric requested
limit to `floor(limit)` clamped into `[1, 50]` and maps a missing or NaN
limit to the operation's default; consequently `searchSanctionsLaw`
returns at most `min(floor(requested), 50)` rows whenever the requested
limit is at least 1, at most one row for every requested limit below 1
(the clamp raises those to 1), and at most the default 10 rows when
`limit` is omitted or NaN. -/
theorem normalizeLimit_clamps_and_caps
    (jsonParse : String → Option Json) (sdb : SearchDb) :
    (∀ q d : ℚ, SanctionsUtils.normalizeLimit (some (.num q)) d =
      .num (min (max ((⌊q⌋ : ℤ) : ℚ) 1) 50)) ∧
    (∀ d : ℚ, SanctionsUtils.normalizeLimit none d = .num d) ∧
    (∀ d : ℚ, SanctionsUtils.normalizeLimit (some .nan) d = .num d) ∧
    (∀ q : ℚ, 1 ≤ q → ∀ input : SearchSanctionsLawInput,
      input.limit = some (.num q) →
      ((searchSanctionsLaw jsonParse sdb input).length : ℤ) ≤ min ⌊q⌋ 50) ∧
    (∀ q : ℚ, q < 1 → ∀ input : SearchSanctionsLawInput,
      input.limit = some (.num q) →
      (searchSanctionsLaw jsonParse sdb input).length ≤ 1) ∧
    (∀ input : SearchSanctionsLawInput,
      input.limit = none ∨ input.limit = some .nan →
      (searchSanctionsLaw jsonParse sdb input).length ≤ 10) := by
  refine ⟨normalizeLimit_num, fun d => rfl, fun d => rfl, ?_, ?_, ?_⟩
  · intro q hq input hlim
    have hfl : (1 : ℤ) ≤ ⌊q⌋ := by
      exact_mod_cast Int.le_floor.mpr (by exact_mod_cast hq)
    have hcast : (min (max ((⌊q⌋ : ℤ) : ℚ) 1) 50) = (((min (max ⌊q⌋ 1) 50 : ℤ) : ℚ)) := by
      push_cast
      rfl
    have hk : SanctionsUtils.normalizeLimit input.limit SanctionsUtils.DEFAULT_LIMIT =
        .num (((min (max ⌊q⌋ 1) 50 : ℤ) : ℚ)) := by
      rw [hlim, normalizeLimit_num, hcast]
    have hlen := searchSanctionsLaw_length_le jsonParse sdb input _ hk
    rw [Int.floor_intCast] at hlen
    omega
  · intro q hq input hlim
    have hfl : ⌊q⌋ < (1 : ℤ) := Int.floor_lt.mpr (by exact_mod_cast hq)
    have hone : (min (max ((⌊q⌋ : ℤ) : ℚ) 1) 50) = (((1 : ℤ) : ℚ)) := by
      have h1 : max ((⌊q⌋ : ℤ) : ℚ) 1 = 1 := max_eq_right (by exact_mod_cast hfl.le)
      rw [h1]
      norm_num
    have hk : SanctionsUtils.normalizeLimit input.limit SanctionsUtils.DEFAULT_LIMIT =
        .num (((1 : ℤ) : ℚ)) := by
      rw [hlim, normalizeLimit_num, hone]
    have hlen := searchSanctionsLaw_length_le jsonParse sdb input _ hk
    rw [Int.floor_intCast] at hlen
    omega
  · intro input hlim
    have hk : SanctionsUtils.normalizeLimit input.limit SanctionsUtils.DEFAULT_LIMIT =
        .num 10 := by
      rcases hlim with h | h <;> rw [h] <;> rfl
    have hlen := searchSanctionsLaw_length_le jsonParse sdb input 10 hk
    simpa using hlen

/-- Witness for C8 (amended): a requested limit of 130 clamps to 50; with
a requested limit of 3 at most 3 rows come back; with a requested limit of
0 at most one row; with no limit at most the default 10. -/
theorem normalizeLimit_clamps_and_caps_witness :
    SanctionsUtils.normalizeLimit (some (.num 130)) 10 = .num 50 ∧
    ((searchSanctionsLaw jsonParseNone emptySearchDb
        ⟨some "cyber", none, none, none, none, some (.num 3)⟩).length : ℤ) ≤ min ⌊(3 : ℚ)⌋ 50 ∧
    (searchSanctionsLaw jsonParseNone emptySearchDb
        ⟨some "cyber", none, none, none, none, some (.num 0)⟩).length ≤ 1 ∧
    (searchSanctionsLaw jsonParseNone emptySearchDb
        ⟨some "cyber", none, none, none, none, none⟩).length ≤ 10 :=
  ⟨by
    rw [(normalizeLimit_clamps_and_caps jsonParseNone emptySearchDb).1 130 10]
    norm_num,
   (normalizeLimit_clamps_and_caps jsonParseNone emptySearchDb).2.2.2.1 3 (by norm_num)
     ⟨some "cyber", none, none, none, none, some (.num 3)⟩ rfl,
   (normalizeLimit_clamps_and_caps jsonParseNone emptySearchDb).2.2.2.2.1 0 (by norm_num)
     ⟨some "cyber", none, none, none, none, some (.num 0)⟩ rfl,
   (normalizeLimit_clamps_and_caps jsonParseNone emptySearchDb).2.2.2.2.2
     ⟨some "cyber", none, none, none, none, none⟩ (Or.inl rfl)⟩

/-- One joined FTS row for the C8 counterexample database. -/
def c8Row : SearchJoinRow :=
  { source_id := "US_OFAC_EXECUTIVE_ORDERS", source_name := "OFAC Executive Orders",
    item_id := "SEC_1", kind := "executive_order_section", title := "Cyber EO",
    snippet := ">>>cyber<<< enabled activities", relevance := -1,
    regime_id := none, regime_name := none, regime_jurisdiction := none,
    issued_on := none, official_url := "https://example.org/eo",
    topics := "[\"cyber\"]" }

/-- A backend on which every match query returns exactly one row. -/
def c8SearchDb : SearchDb := ⟨fun _ => [c8Row]⟩

/-- A well-formed query with requested limit 0. -/
def c8Input : SearchSanctionsLawInput :=
  ⟨some "cyber", none, none, none, none, some (.num 0)⟩

/-- Counterexample to C8 as stated: with requested limit 0 the clamp to
`[1, 50]` makes the query return 1 row, which exceeds
`min(floor(0), 50) = 0` — so "at most `min(floor(requested), 50)` rows" is
false for requested limits below 1. -/
theorem searchSanctionsLaw_limit_zero_returns_row :
    c8Input.limit = some (.num 0) ∧
    (searchSanctionsLaw jsonParseNone c8SearchDb c8Input).length = 1 ∧
    ¬(((searchSanctionsLaw jsonParseNone c8SearchDb c8Input).length : ℤ) ≤
        min ⌊(0 : ℚ)⌋ 50) := by
  have hlim : SanctionsUtils.normalizeLimit (some (.num 0)) SanctionsUtils.DEFAULT_LIMIT =
      .num 1 := by
    rw [normalizeLimit_num]
    norm_num
  have h1 : (("cyber" : String) == "" || jsTrim "cyber" == "") = false := by decide
  have h2 : ¬(safeQueryOf "cyber" = "") := by decide
  have hres : searchSanctionsLaw jsonParseNone c8SearchDb c8Input =
      [mkSearchResult jsonParseNone c8Row] := by
    simp only [searchSanctionsLaw, c8Input, h1, Bool.false_eq_true, if_false, hlim,
      searchRowsPipeline, c8SearchDb, SanctionsUtils.normalizeStringArray,
      SanctionsUtils.normalizeStringArrayGo, List.map_nil, List.isEmpty_nil, if_true,
      List.mergeSort_singleton, sqlLimitTake, if_neg h2]
    norm_num
    exact h2
  rw [hres]
  refine ⟨rfl, rfl, by norm_num⟩

/-! ## JSON array parsing (claim C10) -/

theorem parseJsonArray_elements (elements : List Json) :
    ((elements.map (fun entry => match entry with | Json.str s => some s | _ => none)).filter
      (fun entry => match entry with | some s => s != "" | none => false)).filterMap id =
    elements.filterMap (fun entry =>
      match entry with
      | Json.str t => if t != "" then some t else none
      | _ => none) := by
  induction elements with
  | nil => rfl
  | cons e rest ih =>
    cases e with
    | str t =>
      by_cases ht : t = ""
      · simp [ht, ih]
      · have ht' : (t != "") = true := by simpa using ht
        simp [ht', ih]
        simp [List.filterMap_cons, ht]
    | null => simpa using ih
    | bool b => simpa using ih
    | num n => simpa using ih
    | arr xs => simpa using ih
    | obj fs => simpa using ih

/-- **C10**: `parseJsonArray` is total on every stored column value (the
embedding catches the modelled `JSON.parse` exception as `none`), and its
result is exactly the non-empty string elements of the decoded JSON array
in their original order: a `null` column, the empty string, malformed
JSON, and a non-array decode all yield `[]`, and non-string elements as
well as empty-string elements are dropped. -/
theorem parseJsonArray_characterization (jsonParse : String → Option Json) :
    parseJsonArray jsonParse none = [] ∧
    parseJsonArray jsonParse (some "") = [] ∧
    (∀ s, s ≠ "" → jsonParse s = none → parseJsonArray jsonParse (some s) = []) ∧
    (∀ s elements, s ≠ "" → jsonParse s = some (.arr elements) →
      parseJsonArray jsonParse (some s) =
        elements.filterMap (fun entry =>
          match entry with
          | Json.str t => if t != "" then some t else none
          | _ => none)) ∧
    (∀ s v, s ≠ "" → jsonParse s = some v → (∀ elements, v ≠ .arr elements) →
      parseJsonArray jsonParse (some s) = []) := by
  refine ⟨rfl, rfl, ?_, ?_, ?_⟩
  · intro s hs hp
    simp [parseJsonArray, parseJsonField, hs, hp]
  · intro s elements hs hp
    simp only [parseJsonArray, parseJsonField]
    rw [if_neg (by simpa using hs), hp]
    exact parseJsonArray_elements elements
  · intro s v hs hp hv
    simp only [parseJsonArray, parseJsonField]
    rw [if_neg (by simpa using hs), hp]
    cases v with
    | arr elements => exact absurd rfl (hv elements)
    | null => rfl
    | bool b => rfl
    | num n => rfl
    | str t => rfl
    | obj fs => rfl

/-- A concrete `JSON.parse` oracle decoding one array literal. -/
def jsonParseW : String → Option Json := fun s =>
  if s = "[\"a\",\"\",1]" then some (.arr [.str "a", .str "", .num 1]) else none

/-- Witness for C10: the decoded array `["a", "", 1]` parses to `["a"]`
(empty string and number dropped), and an undecodable value parses to `[]`. -/
theorem parseJsonArray_characterization_witness :
    parseJsonArray jsonParseW (some "[\"a\",\"\",1]") = ["a"] ∧
    parseJsonArray jsonParseW (some "nope") = [] := by
  constructor
  · rw [(parseJsonArray_characterization jsonParseW).2.2.2.1 "[\"a\",\"\",1]"
      [.str "a", .str "", .num 1] (by decide) (by simp [jsonParseW])]
    rfl
  · exact (parseJsonArray_characterization jsonParseW).2.2.1 "nope" (by decide)
      (by simp [jsonParseW])

/-! ## Cyber-sanctions aggregation (`src/tools/check-cyber-sanctions.ts`) -/

/-- `CheckCyberSanctionsInput`. -/
structure CheckCyberSanctionsInput where
  jurisdiction : Option String
  query : Option String
  limit : Option JSNumber

/-- `CyberRegimeResult`. -/
structure CyberRegimeResult where
  regime_id : String
  name : String
  jurisdiction : String
  authority : String
  official_url : String
deriving DecidableEq

/-- `CyberExecutiveOrderResult`. -/
structure CyberExecutiveOrderResult where
  id : String
  order_number : String
  title : String
  issued_on : String
  jurisdiction : String
  official_url : String
deriving DecidableEq

/-- `CyberProvisionResult`. -/
structure CyberProvisionResult where
  source_id : String
  item_id : String
  title : String
  regime_id : Option String
  jurisdiction : String
  official_url : String
  topics : List String
deriving DecidableEq

/-- `CheckCyberSanctionsResult`. -/
structure CheckCyberSanctionsResult where
  matched_query : Option String
  jurisdictions_applied : List String
  regimes : List CyberRegimeResult
  executive_orders : List CyberExecutiveOrderResult
  provisions : List CyberProvisionResult
deriving DecidableEq

/-- JavaScript `String.prototype.startsWith` (a character-level test,
written structurally so concrete instances evaluate). -/
def jsStartsWith (s pre : String) : Bool :=
  pre.data.isPrefixOf s.data

/-- `inferJurisdiction` from `check-cyber-sanctions.ts`. -/
def inferJurisdiction (sourceId : String) : String :=
  if jsStartsWith sourceId "UN_" then "UN"
  else if jsStartsWith sourceId "EU_" then "EU"
  else if jsStartsWith sourceId "US_" then "US"
  else if jsStartsWith sourceId "UK_" then "UK"
  else "INTL"

/-- The `LEFT JOIN sanctions_regimes … r.jurisdiction AS regime_jurisdiction`
column: `none` when there is no regime link (or it dangles). -/
def regimeJurisdictionOf (db : DbState) (regimeId : Option String) : Option String :=
  regimeId.bind (fun rid =>
    (db.sanctions_regimes.find? (fun r => r.id == rid)).map (fun r => r.jurisdiction))

/-- `ORDER BY jurisdiction, name` on regimes. -/
def regimeOrderLe (a b : RegimeRow) : Bool :=
  strLtb a.jurisdiction b.jurisdiction ||
    (a.jurisdiction == b.jurisdiction && strLeb a.name b.name)

/-- `ORDER BY eo.issued_on DESC` on executive orders. -/
def eoIssuedDescLe (a b : ExecutiveOrderRow) : Bool :=
  strLtb b.issued_on a.issued_on || a.issued_on == b.issued_on

/-- `SELECT id AS regime_id, …` projection of a regime row. -/
def RegimeRow.toCyberResult (r : RegimeRow) : CyberRegimeResult :=
  { regime_id := r.id, name := r.name, jurisdiction := r.jurisdiction,
    authority := r.authority, official_url := r.official_url }

/-- The executive-order `map` callback of `checkCyberSanctions`
(`order.regime_jurisdiction ?? inferJurisdiction(order.source_id)`). -/
def mkCyberExecutiveOrder (db : DbState) (e : ExecutiveOrderRow) : CyberExecutiveOrderResult :=
  { id := e.id, order_number := e.order_number, title := e.title,
    issued_on := e.issued_on,
    jurisdiction := (regimeJurisdictionOf db e.regime_id).getD (inferJurisdiction e.source_id),
    official_url := e.official_url }

/-- The provision `map` callback of `checkCyberSanctions`. -/
def mkCyberProvision (jsonParse : String → Option Json) (db : DbState)
    (p : ProvisionRow) : CyberProvisionResult :=
  { source_id := p.source_id, item_id := p.item_id, title := p.title,
    regime_id := p.regime_id,
    jurisdiction := (regimeJurisdictionOf db p.regime_id).getD (inferJurisdiction p.source_id),
    official_url := p.url, topics := parseJsonArray jsonParse (some p.topics) }

/-- `checkCyberSanctions` from `check-cyber-sanctions.ts`. -/
def checkCyberSanctions (jsonParse : String → Option Json) (db : DbState)
    (input : CheckCyberSanctionsInput) : CheckCyberSanctionsResult :=
  let limit := SanctionsUtils.normalizeLimit input.limit 10
  let jurisdictions := SanctionsUtils.normalizeStringArray
    (match input.jurisdiction with
     | some j => if j == "" then none else some [j]
     | none => none)
  let queryTerm := (input.query.map jsTrim).getD ""
  let queryFilter : Option String :=
    if queryTerm.length > 0 then some (SanctionsUtils.sqlLikePattern queryTerm) else none
  let regimes := sqlLimitTake limit
    ((db.sanctions_regimes.filter (fun r => r.cyber_related)).mergeSort regimeOrderLe)
  let filteredRegimes := if jurisdictions.isEmpty then regimes
    else regimes.filter (fun r => jurisdictions.contains r.jurisdiction)
  let executiveOrders := sqlLimitTake limit
    (((db.executive_orders.filter (fun e => e.cyber_related)).filter (fun e =>
        match queryFilter with
        | some pat => likeMatch pat (jsToLower e.title) || likeMatch pat (jsToLower e.summary)
        | none => true)).mergeSort eoIssuedDescLe)
  let normalizedExecutiveOrders :=
    (executiveOrders.map (mkCyberExecutiveOrder db)).filter
      (fun o => jurisdictions.isEmpty || jurisdictions.contains o.jurisdiction)
  let provisionRows := sqlLimitTake limit
    (((db.provisions.filter (fun p =>
        likeMatch (SanctionsUtils.sqlLikePattern "cyber") (jsToLower p.topics))).filter (fun p =>
        match queryFilter with
        | some pat => likeMatch pat (jsToLower p.title) || likeMatch pat (jsToLower p.text)
        | none => true)).mergeSort provisionRecencyLe)
  let normalizedProvisions :=
    (provisionRows.map (mkCyberProvision jsonParse db)).filter
      (fun p => jurisdictions.isEmpty || jurisdictions.contains p.jurisdiction)
  { matched_query := if queryTerm.length > 0 then some queryTerm else none,
    jurisdictions_applied := jurisdictions,
    regimes := filteredRegimes.map RegimeRow.toCyberResult,
    executive_orders := normalizedExecutiveOrders,
    provisions := normalizedProvisions }

theorem mem_sqlLimitTake {α : Type} {n : JSNumber} {l : List α} {a : α}
    (h : a ∈ sqlLimitTake n l) : a ∈ l := by
  cases n with
  | num q => exact List.take_subset _ _ h
  | nan => exact h
  | posInf => exact h
  | negInf => exact h

/-- **C6**: in `checkCyberSanctions`, every executive order or provision
with no linked regime gets its jurisdiction inferred from the source-id
prefix exactly as `UN_→UN, EU_→EU, US_→US, UK_→UK`, anything else `INTL`
(the regime's jurisdiction is used when a regime link exists); the
jurisdiction filter is applied post-fetch, so every surviving row's
jurisdiction is in the applied filter list. -/
theorem checkCyberSanctions_jurisdiction_inference
    (jsonParse : String → Option Json) (db : DbState)
    (input : CheckCyberSanctionsInput) :
    (∀ sourceId : String,
      (jsStartsWith sourceId "UN_" = true → inferJurisdiction sourceId = "UN") ∧
      (jsStartsWith sourceId "UN_" = false → jsStartsWith sourceId "EU_" = true →
        inferJurisdiction sourceId = "EU") ∧
      (jsStartsWith sourceId "UN_" = false → jsStartsWith sourceId "EU_" = false →
        jsStartsWith sourceId "US_" = true → inferJurisdiction sourceId = "US") ∧
      (jsStartsWith sourceId "UN_" = false → jsStartsWith sourceId "EU_" = false →
        jsStartsWith sourceId "US_" = false → jsStartsWith sourceId "UK_" = true →
        inferJurisdiction sourceId = "UK") ∧
      (jsStartsWith sourceId "UN_" = false → jsStartsWith sourceId "EU_" = false →
        jsStartsWith sourceId "US_" = false → jsStartsWith sourceId "UK_" = false →
        inferJurisdiction sourceId = "INTL")) ∧
    (∀ o ∈ (checkCyberSanctions jsonParse db input).executive_orders,
      ∃ e ∈ db.executive_orders,
        e.cyber_related = true ∧
        o = mkCyberExecutiveOrder db e ∧
        (regimeJurisdictionOf db e.regime_id = none →
          o.jurisdiction = inferJurisdiction e.source_id) ∧
        (∀ j, regimeJurisdictionOf db e.regime_id = some j → o.jurisdiction = j) ∧
        ((checkCyberSanctions jsonParse db input).jurisdictions_applied ≠ [] →
          o.jurisdiction ∈ (checkCyberSanctions jsonParse db input).jurisdictions_applied)) ∧
    (∀ p ∈ (checkCyberSanctions jsonParse db input).provisions,
      ∃ pr ∈ db.provisions,
        p = mkCyberProvision jsonParse db pr ∧
        (regimeJurisdictionOf db pr.regime_id = none →
          p.jurisdiction = inferJurisdiction pr.source_id) ∧
        (∀ j, regimeJurisdictionOf db pr.regime_id = some j → p.jurisdiction = j) ∧
        ((checkCyberSanctions jsonParse db input).jurisdictions_applied ≠ [] →
          p.jurisdiction ∈ (checkCyberSanctions jsonParse db input).jurisdictions_applied)) := by
  refine ⟨?_, ?_, ?_⟩
  · intro s
    refine ⟨?_, ?_, ?_, ?_, ?_⟩
    · intro h1; simp [inferJurisdiction, h1]
    · intro h1 h2; simp [inferJurisdiction, h1, h2]
    · intro h1 h2 h3; simp [inferJurisdiction, h1, h2, h3]
    · intro h1 h2 h3 h4; simp [inferJurisdiction, h1, h2, h3, h4]
    · intro h1 h2 h3 h4; simp [inferJurisdiction, h1, h2, h3, h4]
  · intro o ho
    dsimp only [checkCyberSanctions] at ho ⊢
    rw [List.mem_filter] at ho
    obtain ⟨homem, hopred⟩ := ho
    rw [List.mem_map] at homem
    obtain ⟨e, hemem, rfl⟩ := homem
    have h2 := mem_sqlLimitTake hemem
    rw [List.mem_mergeSort, List.mem_filter] at h2
    obtain ⟨h3, -⟩ := h2
    rw [List.mem_filter] at h3
    obtain ⟨he1, hcyber⟩ := h3
    refine ⟨e, he1, hcyber, rfl, ?_, ?_, ?_⟩
    · intro hnone
      simp [mkCyberExecutiveOrder, hnone]
    · intro j hj
      simp [mkCyberExecutiveOrder, hj]
    · intro hne
      cases hje : (SanctionsUtils.normalizeStringArray
          (match input.jurisdiction with
           | some j => if j == "" then none else some [j]
           | none => none)).isEmpty with
      | true =>
        exact absurd (List.isEmpty_iff.mp hje) hne
      | false =>
        rw [hje] at hopred
        simpa using hopred
  · intro p hp
    dsimp only [checkCyberSanctions] at hp ⊢
    rw [List.mem_filter] at hp
    obtain ⟨hpmem, hppred⟩ := hp
    rw [List.mem_map] at hpmem
    obtain ⟨pr, hprmem, rfl⟩ := hpmem
    have h2 := mem_sqlLimitTake hprmem
    rw [List.mem_mergeSort, List.mem_filter] at h2
    obtain ⟨h3, -⟩ := h2
    have he1 := List.mem_of_mem_filter h3
    refine ⟨pr, he1, rfl, ?_, ?_, ?_⟩
    · intro hnone
      simp [mkCyberProvision, hnone]
    · intro j hj
      simp [mkCyberProvision, hj]
    · intro hne
      cases hje : (SanctionsUtils.normalizeStringArray
          (match input.jurisdiction with
           | some j => if j == "" then none else some [j]
           | none => none)).isEmpty with
      | true =>
        exact absurd (List.isEmpty_iff.mp hje) hne
      | false =>
        rw [hje] at hppred
        simpa using hppred

/-- A cyber-related executive order with no regime link, issued by
`UK_OFSI_REGULATIONS`. -/
def c6Eo : ExecutiveOrderRow :=
  { id := "EO_UK_1", source_id := "UK_OFSI_REGULATIONS", regime_id := none,
    order_number := "2020/123", title := "Cyber sanctions regulations",
    issued_on := "2020-06-01", status := "active",
    summary := "Cyber-attack sanctions", cyber_related := true,
    legal_basis := "[]", official_url := "https://example.org/uk" }

/-- A database holding only that executive order. -/
def c6Db : DbState := { emptyDbState with executive_orders := [c6Eo] }

/-- Concrete evaluation: without a jurisdiction filter the order comes back
(with inferred jurisdiction). -/
theorem c6_eval_nofilter :
    (checkCyberSanctions jsonParseNone c6Db ⟨none, none, none⟩).executive_orders =
      [mkCyberExecutiveOrder c6Db c6Eo] := by
  have key : (checkCyberSanctions jsonParseNone c6Db ⟨none, none, none⟩).executive_orders =
      ((sqlLimitTake (SanctionsUtils.normalizeLimit none 10)
          ([c6Eo].mergeSort eoIssuedDescLe)).map
        (mkCyberExecutiveOrder c6Db)).filter (fun _ => true) := rfl
  rw [key, List.mergeSort_singleton]
  decide

/-- Concrete evaluation: a jurisdiction filter of `EU` excludes the order,
whose inferred jurisdiction is `UK`. -/
theorem c6_eval_eufilter :
    (checkCyberSanctions jsonParseNone c6Db ⟨some "EU", none, none⟩).executive_orders = [] := by
  have key : (checkCyberSanctions jsonParseNone c6Db ⟨some "EU", none, none⟩).executive_orders =
      ((sqlLimitTake (SanctionsUtils.normalizeLimit none 10)
          ([c6Eo].mergeSort eoIssuedDescLe)).map
        (mkCyberExecutiveOrder c6Db)).filter
        (fun o => (SanctionsUtils.normalizeStringArray (some ["EU"])).isEmpty ||
          (SanctionsUtils.normalizeStringArray (some ["EU"])).contains o.jurisdiction) := rfl
  rw [key, List.mergeSort_singleton]
  decide

/-- Witness for C6: `UK_OFSI_REGULATIONS` with no regime link is assigned
jurisdiction `UK`, is returned when no filter applies, and is excluded by
an `EU` jurisdiction filter. -/
theorem checkCyberSanctions_jurisdiction_inference_witness :
    inferJurisdiction "UK_OFSI_REGULATIONS" = "UK" ∧
    (checkCyberSanctions jsonParseNone c6Db ⟨none, none, none⟩).executive_orders =
      [mkCyberExecutiveOrder c6Db c6Eo] ∧
    (mkCyberExecutiveOrder c6Db c6Eo).jurisdiction = "UK" ∧
    (checkCyberSanctions jsonParseNone c6Db ⟨some "EU", none, none⟩).executive_orders = [] :=
  ⟨((checkCyberSanctions_jurisdiction_inference jsonParseNone c6Db
      ⟨none, none, none⟩).1 "UK_OFSI_REGULATIONS").2.2.2.1
      (by decide) (by decide) (by decide) (by decide),
   c6_eval_nofilter,
   by decide,
   c6_eval_eufilter⟩

theorem string_length_pos {s : String} (h : s ≠ "") : 0 < s.length := by
  cases s with
  | mk data =>
    cases data with
    | nil => simp [String.ext_iff] at h
    | cons c cs => simp [String.length]

theorem sqlLimitTake_length {α : Type} (k : ℚ) (l : List α) :
    (sqlLimitTake (.num k) l).length ≤ (⌊k⌋).toNat := by
  simp [sqlLimitTake]

/-- **C5 (amended)**: when a non-blank free-text query is supplied,
`checkCyberSanctions` narrows the executive-order list (by title/summary)
and the provision list (by title/text) with the case-insensitive substring
filter, and caps all three result lists at the normalized limit; the
cyber-flagged regimes list is *not* narrowed by the query. -/
theorem checkCyberSanctions_query_narrowing
    (jsonParse : String → Option Json) (db : DbState)
    (input : CheckCyberSanctionsInput)
    (hq : (input.query.map jsTrim).getD "" ≠ "") :
    (∀ o ∈ (checkCyberSanctions jsonParse db input).executive_orders,
      ∃ e ∈ db.executive_orders,
        o = mkCyberExecutiveOrder db e ∧
        (likeMatch (SanctionsUtils.sqlLikePattern ((input.query.map jsTrim).getD ""))
            (jsToLower e.title) ||
         likeMatch (SanctionsUtils.sqlLikePattern ((input.query.map jsTrim).getD ""))
            (jsToLower e.summary)) = true) ∧
    (∀ p ∈ (checkCyberSanctions jsonParse db input).provisions,
      ∃ pr ∈ db.provisions,
        p = mkCyberProvision jsonParse db pr ∧
        likeMatch (SanctionsUtils.sqlLikePattern "cyber") (jsToLower pr.topics) = true ∧
        (likeMatch (SanctionsUtils.sqlLikePattern ((input.query.map jsTrim).getD ""))
            (jsToLower pr.title) ||
         likeMatch (SanctionsUtils.sqlLikePattern ((input.query.map jsTrim).getD ""))
            (jsToLower pr.text)) = true) ∧
    (∀ k : ℚ, SanctionsUtils.normalizeLimit input.limit 10 = .num k →
      (checkCyberSanctions jsonParse db input).regimes.length ≤ (⌊k⌋).toNat ∧
      (checkCyberSanctions jsonParse db input).executive_orders.length ≤ (⌊k⌋).toNat ∧
      (checkCyberSanctions jsonParse db input).provisions.length ≤ (⌊k⌋).toNat) := by
  have hlen : 0 < ((input.query.map jsTrim).getD "").length := string_length_pos hq
  refine ⟨?_, ?_, ?_⟩
  · intro o ho
    dsimp only [checkCyberSanctions] at ho
    rw [if_pos hlen] at ho
    rw [List.mem_filter] at ho
    obtain ⟨homem, -⟩ := ho
    rw [List.mem_map] at homem
    obtain ⟨e, hemem, rfl⟩ := homem
    have h2 := mem_sqlLimitTake hemem
    rw [List.mem_mergeSort, List.mem_filter] at h2
    obtain ⟨h3, hmatch⟩ := h2
    exact ⟨e, List.mem_of_mem_filter h3, rfl, hmatch⟩
  · intro p hp
    dsimp only [checkCyberSanctions] at hp
    rw [if_pos hlen] at hp
    rw [List.mem_filter] at hp
    obtain ⟨hpmem, -⟩ := hp
    rw [List.mem_map] at hpmem
    obtain ⟨pr, hprmem, rfl⟩ := hpmem
    have h2 := mem_sqlLimitTake hprmem
    rw [List.mem_mergeSort, List.mem_filter] at h2
    obtain ⟨h3, hmatch⟩ := h2
    rw [List.mem_filter] at h3
    obtain ⟨hpr1, hcybertopic⟩ := h3
    exact ⟨pr, hpr1, rfl, hcybertopic, hmatch⟩
  · intro k hk
    dsimp only [checkCyberSanctions]
    rw [hk]
    refine ⟨?_, ?_, ?_⟩
    · rw [List.length_map]
      split
      · exact sqlLimitTake_length _ _
      · exact le_trans (List.length_filter_le _ _) (sqlLimitTake_length _ _)
    · exact le_trans (List.length_filter_le _ _)
        (by rw [List.length_map]; exact sqlLimitTake_length _ _)
    · exact le_trans (List.length_filter_le _ _)
        (by rw [List.length_map]; exact sqlLimitTake_length _ _)

/-- A cyber-flagged regime none of whose text fields contain `zzz`. -/
def c5Regime : RegimeRow :=
  { id := "EU_CYBER_2019_796", name := "EU cyber sanctions regime",
    jurisdiction := "EU", authority := "Council of the European Union",
    summary := "Cyber-attack restrictive measures", legal_basis := "[]",
    cyber_related := true, delisting_procedure_id := none,
    official_url := "https://example.org/eu" }

/-- A database holding only that regime. -/
def c5Db : DbState := { emptyDbState with sanctions_regimes := [c5Regime] }

/-- Counterexample to C5 as stated: with the free-text query `zzz`, the
regimes list still returns the cyber regime although none of its text
fields contain the term — the regimes query is not narrowed by the
substring filter (only executive orders and provisions are). -/
theorem checkCyberSanctions_regimes_not_query_filtered :
    (checkCyberSanctions jsonParseNone c5Db ⟨none, some "zzz", none⟩).matched_query =
      some "zzz" ∧
    (checkCyberSanctions jsonParseNone c5Db ⟨none, some "zzz", none⟩).regimes =
      [RegimeRow.toCyberResult c5Regime] ∧
    likeMatch (SanctionsUtils.sqlLikePattern "zzz") (jsToLower c5Regime.name) = false ∧
    likeMatch (SanctionsUtils.sqlLikePattern "zzz") (jsToLower c5Regime.id) = false ∧
    likeMatch (SanctionsUtils.sqlLikePattern "zzz") (jsToLower c5Regime.jurisdiction) = false ∧
    likeMatch (SanctionsUtils.sqlLikePattern "zzz") (jsToLower c5Regime.authority) = false ∧
    likeMatch (SanctionsUtils.sqlLikePattern "zzz") (jsToLower c5Regime.summary) = false ∧
    likeMatch (SanctionsUtils.sqlLikePattern "zzz") (jsToLower c5Regime.official_url) = false := by
  have key : (checkCyberSanctions jsonParseNone c5Db ⟨none, some "zzz", none⟩).regimes =
      (sqlLimitTake (SanctionsUtils.normalizeLimit none 10)
        ([c5Regime].mergeSort regimeOrderLe)).map RegimeRow.toCyberResult := rfl
  refine ⟨rfl, ?_, by decide, by decide, by decide, by decide, by decide, by decide⟩
  rw [key, List.mergeSort_singleton]
  decide

/-- Witness for C5 (amended): with query `cyber` against the single-order
database, the returned executive order provably matches the title/summary
substring filter, and the three lists respect the limit cap. -/
theorem checkCyberSanctions_query_narrowing_witness :
    (∃ e ∈ c6Db.executive_orders,
        mkCyberExecutiveOrder c6Db c6Eo = mkCyberExecutiveOrder c6Db e ∧
        (likeMatch (SanctionsUtils.sqlLikePattern (jsTrim "cyber")) (jsToLower e.title) ||
         likeMatch (SanctionsUtils.sqlLikePattern (jsTrim "cyber")) (jsToLower e.summary)) = true) ∧
    (checkCyberSanctions jsonParseNone c6Db ⟨none, some "cyber", none⟩).regimes.length ≤
      (⌊(10 : ℚ)⌋).toNat :=
  ⟨(checkCyberSanctions_query_narrowing jsonParseNone c6Db
      ⟨none, some "cyber", none⟩ (by decide)).1
      (mkCyberExecutiveOrder c6Db c6Eo)
      (by
        have key : (checkCyberSanctions jsonParseNone c6Db
            ⟨none, some "cyber", none⟩).executive_orders =
            ((sqlLimitTake (SanctionsUtils.normalizeLimit none 10)
                ([c6Eo].mergeSort eoIssuedDescLe)).map
              (mkCyberExecutiveOrder c6Db)).filter (fun _ => true) := rfl
        rw [key, List.mergeSort_singleton]
        decide),
   ((checkCyberSanctions_query_narrowing jsonParseNone c6Db
      ⟨none, some "cyber", none⟩ (by decide)).2.2 10 rfl).1⟩

/-! ## Source listing (`src/tools/list-sources.ts`) -/

/-- `ListSourcesInput`. -/
structure ListSourcesInput where
  source_id : Option String
  include_samples : Option Bool

/-- `SourceSummary`. -/
structure SourceSummary where
  id : String
  name : String
  authority : String
  official_portal : String
  update_frequency : String
  priority : String
  records_estimate : String
  provision_count : Nat
  regime_count : Nat
  case_law_count : Nat
  freshness_status : Option String
  last_updated : Option String
deriving DecidableEq

/-- A sample item of `SourceDetail`. -/
structure SampleItem where
  item_id : String
  title : String
  kind : String
  official_url : String
deriving DecidableEq

/-- `SourceDetail`. -/
structure SourceDetail extends SourceSummary where
  coverage_note : String
  last_verified : String
  metadata : Option Json
  sample_items : List SampleItem

/-- `ListSourcesResult`. -/
structure ListSourcesResult where
  sources : List SourceSummary
  source : Option SourceDetail

/-- The `CASE s.priority … END` rank of the summary `ORDER BY`:
`critical→0, high→1, medium→2`, anything else (including `low`) `3`. -/
def priorityRank (priority : String) : Nat :=
  if priority == "critical" then 0
  else if priority == "high" then 1
  else if priority == "medium" then 2
  else 3

/-- `ORDER BY CASE s.priority …, s.id` on source rows. -/
def srcOrderLe (a b : SourceRow) : Bool :=
  priorityRank a.priority < priorityRank b.priority ||
    (priorityRank a.priority == priorityRank b.priority && strLeb a.id b.id)

/-- The per-source aggregate columns of the `listSources` summary query. -/
def summarizeSource (db : DbState) (s : SourceRow) : SourceSummary :=
  { id := s.id, name := s.name, authority := s.authority,
    official_portal := s.official_portal, update_frequency := s.update_frequency,
    priority := s.priority, records_estimate := s.records_estimate,
    provision_count := (db.provisions.filter (fun p => p.source_id == s.id)).length,
    regime_count :=
      ((db.provisions.filter (fun p => p.source_id == s.id)).filterMap
        (fun p => p.regime_id)).dedup.length,
    case_law_count := (db.sanctions_case_law.filter (fun c => c.source_id == s.id)).length,
    freshness_status :=
      (db.source_freshness.find? (fun f => f.source_id == s.id)).map (fun f => f.status),
    last_updated :=
      (db.source_freshness.find? (fun f => f.source_id == s.id)).map (fun f => f.last_updated) }

/-- `SAMPLE_LIMIT` from `list-sources.ts`. -/
def SAMPLE_LIMIT : Nat := 5

/-- `listSources` from `list-sources.ts`. -/
def listSources (jsonParse : String → Option Json) (db : DbState)
    (input : ListSourcesInput) : ListSourcesResult :=
  let sources := (db.sources.mergeSort srcOrderLe).map (summarizeSource db)
  match input.source_id with
  | none => { sources := sources, source := none }
  | some sid0 =>
    if sid0 == "" || jsTrim sid0 == "" then { sources := sources, source := none }
    else
      let sourceId := jsTrim sid0
      match db.sources.find? (fun s => s.id == sourceId) with
      | none => { sources := sources, source := none }
      | some s =>
        let sampleItems :=
          if (match input.include_samples with | some b => b | none => false) then
            (((db.provisions.filter (fun p => p.source_id == sourceId)).mergeSort
                provisionRecencyLe).take SAMPLE_LIMIT).map
              (fun p => ({ item_id := p.item_id, title := p.title, kind := p.kind,
                           official_url := p.url } : SampleItem))
          else []
        { sources := sources,
          source := some
            { toSourceSummary := summarizeSource db s,
              coverage_note := s.coverage_note, last_verified := s.last_verified,
              metadata := parseJsonField jsonParse s.metadata,
              sample_items := sampleItems } }

theorem charListLtb_trans :
    ∀ {l₁ l₂ l₃ : List Char}, charListLtb l₁ l₂ = true → charListLtb l₂ l₃ = true →
      charListLtb l₁ l₃ = true := by
  intro l₁
  induction l₁ with
  | nil =>
    intro l₂ l₃ h1 h2
    cases l₂ with
    | nil => simp [charListLtb] at h1
    | cons d ds =>
      cases l₃ with
      | nil => simp [charListLtb] at h2
      | cons e es => rfl
  | cons c cs ih =>
    intro l₂ l₃ h1 h2
    cases l₂ with
    | nil => simp [charListLtb] at h1
    | cons d ds =>
      cases l₃ with
      | nil => simp [charListLtb] at h2
      | cons e es =>
        simp only [charListLtb, Bool.or_eq_true, Bool.and_eq_true, decide_eq_true_eq,
          beq_iff_eq] at h1 h2 ⊢
        rcases h1 with h1 | ⟨h1e, h1r⟩ <;> rcases h2 with h2 | ⟨h2e, h2r⟩
        · exact Or.inl (lt_trans h1 h2)
        · exact Or.inl (h2e ▸ h1)
        · exact Or.inl (h1e ▸ h2)
        · exact Or.inr ⟨h1e.trans h2e, ih h1r h2r⟩

theorem charListLtb_trichotomy :
    ∀ (l₁ l₂ : List Char), charListLtb l₁ l₂ = true ∨ l₁ = l₂ ∨ charListLtb l₂ l₁ = true := by
  intro l₁
  induction l₁ with
  | nil =>
    intro l₂
    cases l₂ with
    | nil => exact Or.inr (Or.inl rfl)
    | cons d ds => exact Or.inl rfl
  | cons c cs ih =>
    intro l₂
    cases l₂ with
    | nil => exact Or.inr (Or.inr rfl)
    | cons d ds =>
      rcases lt_trichotomy c d with h | h | h
      · exact Or.inl (by simp [charListLtb, h])
      · subst h
        rcases ih ds with h2 | h2 | h2
        · exact Or.inl (by simp [charListLtb, h2])
        · exact Or.inr (Or.inl (by rw [h2]))
        · exact Or.inr (Or.inr (by simp [charListLtb, h2]))
      · exact Or.inr (Or.inr (by simp [charListLtb, h]))

theorem strLeb_trans {a b c : String} (h1 : strLeb a b = true) (h2 : strLeb b c = true) :
    strLeb a c = true := by
  simp only [strLeb, Bool.or_eq_true, beq_iff_eq] at h1 h2 ⊢
  rcases h1 with h1 | h1 <;> rcases h2 with h2 | h2
  · exact Or.inl (charListLtb_trans h1 h2)
  · exact Or.inl (h2 ▸ h1)
  · exact Or.inl (h1 ▸ h2)
  · exact Or.inr (h1.trans h2)

theorem strLeb_total (a b : String) : (strLeb a b || strLeb b a) = true := by
  simp only [strLeb, strLtb, Bool.or_eq_true, beq_iff_eq]
  rcases charListLtb_trichotomy a.data b.data with h | h | h
  · exact Or.inl (Or.inl h)
  · exact Or.inl (Or.inr (by cases a; cases b; simp only at h; rw [h]))
  · exact Or.inr (Or.inl h)

theorem srcOrderLe_iff (a b : SourceRow) :
    srcOrderLe a b = true ↔
      (priorityRank a.priority < priorityRank b.priority ∨
        (priorityRank a.priority = priorityRank b.priority ∧ strLeb a.id b.id = true)) := by
  simp only [srcOrderLe, Bool.or_eq_true, Bool.and_eq_true, decide_eq_true_eq, beq_iff_eq]

theorem srcOrderLe_trans (a b c : SourceRow)
    (hab : srcOrderLe a b = true) (hbc : srcOrderLe b c = true) :
    srcOrderLe a c = true := by
  rw [srcOrderLe_iff] at hab hbc ⊢
  rcases hab with h1 | ⟨h1, h2⟩ <;> rcases hbc with h3 | ⟨h3, h4⟩
  · exact Or.inl (h1.trans h3)
  · exact Or.inl (by omega)
  · exact Or.inl (by omega)
  · exact Or.inr ⟨by omega, strLeb_trans h2 h4⟩

theorem srcOrderLe_total (a b : SourceRow) :
    (srcOrderLe a b || srcOrderLe b a) = true := by
  rw [Bool.or_eq_true, srcOrderLe_iff, srcOrderLe_iff]
  rcases Nat.lt_trichotomy (priorityRank a.priority) (priorityRank b.priority) with h | h | h
  · exact Or.inl (Or.inl h)
  · rcases Bool.or_eq_true_iff.mp (strLeb_total a.id b.id) with hle | hle
    · exact Or.inl (Or.inr ⟨h, hle⟩)
    · exact Or.inr (Or.inr ⟨h.symm, hle⟩)
  · exact Or.inr (Or.inl h)

/-- **C7 (amended)**: `listSources` always returns the summary of every
source, sorted by the rank `critical→0, high→1, medium→2`, *everything
else (including `low`)→3*, with ties broken by source id ascending; a
`low`-priority source therefore shares rank 3 with sources whose priority
is outside the known tiers and is ordered against them purely by id. -/
theorem listSources_priority_order (jsonParse : String → Option Json) (db : DbState)
    (input : ListSourcesInput) :
    (listSources jsonParse db input).sources.Perm (db.sources.map (summarizeSource db)) ∧
    (listSources jsonParse db input).sources.Pairwise (fun a b =>
      priorityRank a.priority < priorityRank b.priority ∨
        (priorityRank a.priority = priorityRank b.priority ∧ strLeb a.id b.id = true)) := by
  have hsrc : (listSources jsonParse db input).sources =
      (db.sources.mergeSort srcOrderLe).map (summarizeSource db) := by
    unfold listSources
    rcases input.source_id with _ | sid
    · rfl
    · dsimp only
      split
      · rfl
      · cases db.sources.find? (fun s => s.id == jsTrim sid) <;> rfl
  constructor
  · rw [hsrc]
    exact (List.mergeSort_perm db.sources srcOrderLe).map (summarizeSource db)
  · rw [hsrc]
    have hs := @List.sorted_mergeSort _ srcOrderLe srcOrderLe_trans srcOrderLe_total
      db.sources
    exact hs.map _ (fun a b h => (srcOrderLe_iff a b).mp h)

/-- A `low`-priority source whose id sorts after the unknown-priority one. -/
def c7SourceLow : SourceRow :=
  { id := "B_LOW_SOURCE", name := "Low source", authority := "X",
    official_portal := "https://x", retrieval_method := "manual",
    update_frequency := "monthly", records_estimate := "1", priority := "low",
    coverage_note := "", last_verified := "2026-01-01", metadata := none }

/-- A source whose priority is outside the four known tiers. -/
def c7SourceOdd : SourceRow :=
  { id := "A_ODD_SOURCE", name := "Odd source", authority := "X",
    official_portal := "https://x", retrieval_method := "manual",
    update_frequency := "monthly", records_estimate := "1", priority := "experimental",
    coverage_note := "", last_verified := "2026-01-01", metadata := none }

/-- Both sources, the `low` one stored first. -/
def c7Db : DbState := { emptyDbState with sources := [c7SourceLow, c7SourceOdd] }

/-- Counterexample to C7 as stated: the `CASE` expression maps `low` and
unrecognized priorities to the same rank 3, so the `low`-priority source
`B_LOW_SOURCE` does *not* precede the `experimental`-priority source
`A_ODD_SOURCE` — the tie is broken by id and the unknown-priority source
comes first. -/
theorem listSources_low_does_not_precede_unknown :
    ((listSources jsonParseNone c7Db ⟨none, none⟩).sources.map
      (fun s => (s.id, s.priority))) =
      [("A_ODD_SOURCE", "experimental"), ("B_LOW_SOURCE", "low")] := by
  have key : (listSources jsonParseNone c7Db ⟨none, none⟩).sources =
      ([c7SourceLow, c7SourceOdd].mergeSort srcOrderLe).map (summarizeSource c7Db) := rfl
  have h1 : srcOrderLe c7SourceLow c7SourceOdd = false := by decide
  have h2 : srcOrderLe c7SourceOdd c7SourceLow = true := by decide
  have hsort : [c7SourceLow, c7SourceOdd].mergeSort srcOrderLe =
      [c7SourceOdd, c7SourceLow] := by
    simp [List.mergeSort, List.merge, h1, h2]
  rw [key, hsort]
  decide
